import Mathlib

/-!
Brick-Out: the ball of `src/ball.cxx`.

A shallow embedding of the `Ball` entity of the Brick-Out game (`src/src/ball.cxx`) and
theorems about its motion, its collision predicates and the removal of bricks. The simulation
step (`Model::on_frame`, `Model::paddle_to`), whose code is not among the sources, is modelled
from the specification.

Conventions of the embedding:

* C++ `float` / `double` values are exact rationals (`ℚ`): the arithmetic is the arithmetic
  of the real numbers, rounding of floating-point operations is not part of the model, except
  in `Ball.next_float`, which rounds every operation of `Ball::next` and decides the one claim
  that compares differently grouped computations;
* C++ `int` values are unbounded integers (`Int`); integer division is `Int.tdiv`
  (rounds toward zero), and the conversion of a `float` to an `int` is `truncate_to_int`
  (rounds toward zero);
* a `std::vector<Block>` is a `List Block`; a method that mutates its argument returns the
  new value next to its result.
-/

namespace BrickOut

/-! ## Geometry (the `ge211` types that `ball.cxx` uses) -/

/-- Modelled from the spec: the `ge211::Posn<T>` type is not among the sources; a position is
a pair of coordinates, `x` growing rightward and `y` growing downward. -/
structure Posn (α : Type) where
  x : α
  y : α
deriving DecidableEq

/-- Modelled from the spec: the `ge211::Dims<T>` type is not among the sources; dimensions (and
velocities) are a width/height pair. -/
structure Dims (α : Type) where
  width : α
  height : α
deriving DecidableEq

/-- Modelled from the spec: `Block` is `ge211::Rect<int>`, whose declaration is not among the
sources: an axis-aligned rectangle given by its top-left corner and its width and height. -/
structure Block where
  x : Int
  y : Int
  width : Int
  height : Int
deriving DecidableEq

/-- A position in the scene, with `float` coordinates. -/
abbrev Position := Posn ℚ

/-- A velocity, with `float` components. -/
abbrev Velocity := Dims ℚ

/-- The position `dy` above: `Posn::up_by`. -/
def Posn.up_by {α : Type} [Sub α] (p : Posn α) (dy : α) : Posn α := ⟨p.x, p.y - dy⟩

/-- The position `dy` below: `Posn::down_by`. -/
def Posn.down_by {α : Type} [Add α] (p : Posn α) (dy : α) : Posn α := ⟨p.x, p.y + dy⟩

/-- The position `dx` to the right: `Posn::right_by`. -/
def Posn.right_by {α : Type} [Add α] (p : Posn α) (dx : α) : Posn α := ⟨p.x + dx, p.y⟩

/-- Conversion of an integer position to a `float` position: `Posn<int>::into<float>`. -/
def Posn.into_float (p : Posn Int) : Position := ⟨(p.x : ℚ), (p.y : ℚ)⟩

/-- Conversion of integer dimensions to `float` dimensions: `Velocity(Dims<int>)`. -/
def Dims.into_float (d : Dims Int) : Velocity := ⟨(d.width : ℚ), (d.height : ℚ)⟩

/-- The top-left corner of a block: `Rect::top_left`. -/
def Block.top_left (b : Block) : Posn Int := ⟨b.x, b.y⟩

/-- The top-right corner of a block: `Rect::top_right`. -/
def Block.top_right (b : Block) : Posn Int := b.top_left.right_by b.width

/-- The bottom-left corner of a block: `Rect::bottom_left`. -/
def Block.bottom_left (b : Block) : Posn Int := b.top_left.down_by b.height

/-- The conversion of a `float` to an `int`: the fractional part is discarded, so the value
is rounded toward zero. -/
def truncate_to_int (q : ℚ) : Int := if 0 ≤ q then ⌊q⌋ else ⌈q⌉

/-! ## Configuration and ball -/

/-- Modelled from the spec: `game_config.hxx` is not among the sources. These are the fields
that `ball.cxx` reads: the scene dimensions, the radius of the ball and its initial velocity.
The radius is an integer number of pixels: `above_block` adds it to an `int` and moves a
`Posn<int>` by the sum. -/
structure Game_config where
  scene_dims : Dims Int
  ball_radius : Int
  ball_velocity_0 : Dims Int
deriving DecidableEq

/-- Modelled from the spec: `ball.hxx` is not among the sources. The four fields of a ball,
in the order in which the constructor of `ball.cxx` initialises them. -/
structure Ball where
  radius : ℚ
  center : Position
  velocity : Velocity
  live : Bool
deriving DecidableEq

/-- Where the ball should be when it is stuck to the paddle: centered above it, 1 pixel up. -/
def above_block (block : Block) (config : Game_config) : Position :=
  let p : Posn Int := block.top_left
  let p := p.up_by (1 + config.ball_radius)
  let p := p.right_by (Int.tdiv block.width 2)
  p.into_float

/-- The constructor `Ball::Ball(Block const& paddle, Game_config const& config)` (named `new`:
a structure cannot have a member of its own name). -/
def Ball.new (paddle : Block) (config : Game_config) : Ball where
  radius := (config.ball_radius : ℚ)
  center := above_block paddle config
  velocity := config.ball_velocity_0.into_float
  live := false

/-- The top-left corner of the bounding square of the ball. -/
def Ball.top_left (b : Ball) : Position :=
  let x := b.center.x - b.radius
  let y := b.center.y - b.radius
  ⟨x, y⟩

/-- The ball hits the bottom when the bottom of its bounding square is below the scene. -/
def Ball.hits_bottom (b : Ball) (config : Game_config) : Bool :=
  if b.center.y + b.radius > (config.scene_dims.height : ℚ) then true else false

/-- The ball hits the top when the y coordinate of its top is less than 0. -/
def Ball.hits_top (b : Ball) (_config : Game_config) : Bool :=
  if b.center.y - b.radius < 0 then true else false

/-- The ball hits a side when its left side is left of 0 or its right side is right of the
width of the scene. -/
def Ball.hits_side (b : Ball) (config : Game_config) : Bool :=
  if b.center.x - b.radius < 0 ∨ b.center.x + b.radius > (config.scene_dims.width : ℚ) then true
  else false

/-- The ball after `dt` seconds: `Ball::next`. -/
def Ball.next (b : Ball) (dt : ℚ) : Ball :=
  let result := b
  let result := { result with
    center := { result.center with y := (result.center.down_by (result.velocity.height * dt)).y } }
  let result := { result with
    center := { result.center with x := (result.center.right_by (result.velocity.width * dt)).x } }
  result

/-- Intersection of the bounding square of the ball, its four edges converted to `int`, with
a block: `Ball::hits_block`. -/
def Ball.hits_block (b : Ball) (block : Block) : Bool :=
  let top : Int := truncate_to_int (b.center.y - b.radius)
  let left : Int := truncate_to_int (b.center.x - b.radius)
  let bottom : Int := truncate_to_int (b.center.y + b.radius)
  let right : Int := truncate_to_int (b.center.x + b.radius)
  if block.top_right.x < left ∨ right < block.top_left.x then false
  else if bottom < block.top_right.y ∨ block.bottom_left.y < top then false
  else true

/-- Negation of the vertical component of the velocity: `Ball::reflect_vertical`. -/
def Ball.reflect_vertical (b : Ball) : Ball :=
  { b with velocity := { b.velocity with height := b.velocity.height * -1 } }

/-- Negation of the horizontal component of the velocity: `Ball::reflect_horizontal`. -/
def Ball.reflect_horizontal (b : Ball) : Ball :=
  { b with velocity := { b.velocity with width := b.velocity.width * -1 } }

/-- The loop of `Ball::destroy_brick`: `rest` is the part of `bricks` still to be visited and
`i` the index in `bricks` of its first element. The first brick that the ball hits is
overwritten with the last brick, the last brick is popped, and the loop stops. -/
def Ball.destroy_brick_loop (b : Ball) (bricks : List Block) : List Block → Nat → Bool × List Block
  | [], _ => (false, bricks)
  | brick :: rest, i =>
    if b.hits_block brick then
      (true, (bricks.set i (bricks.getLastD brick)).dropLast)
    else
      Ball.destroy_brick_loop b bricks rest (i + 1)

/-- The method `Ball::destroy_brick`: its result and the bricks after the call. -/
def Ball.destroy_brick (b : Ball) (bricks : List Block) : Bool × List Block :=
  b.destroy_brick_loop bricks bricks 0

/-- Equality of balls: `operator==(Ball const&, Ball const&)`. -/
def Ball.op_eq (a b : Ball) : Bool :=
  a.center == b.center && a.radius == b.radius && a.velocity == b.velocity && a.live == b.live

/-- Inequality of balls: `operator!=(Ball const&, Ball const&)`. -/
def Ball.op_ne (a b : Ball) : Bool :=
  !(Ball.op_eq a b)

/-! ## Floating-point rounding -/

/-- Rounding of a real value to the nearest value with a significand of `p` bits, ties to the
even significand: the rounding of the IEEE 754 binary formats, without their bounds on the
exponent (no overflow, no subnormal values). The exponent `e` of the last bit is the one that
puts the scaled value `q / 2 ^ e` between `2 ^ (p - 1)` and `2 ^ p`. -/
def round_to_precision (p : Nat) (q : ℚ) : ℚ :=
  if q = 0 then 0
  else
    let e : Int := Int.log 2 |q| - ((p : Int) - 1)
    let scaled : ℚ := q / (2 : ℚ) ^ e
    let lower : Int := ⌊scaled⌋
    let frac : ℚ := scaled - lower
    let n : Int :=
      if frac < 1 / 2 then lower
      else if 1 / 2 < frac then lower + 1
      else if lower % 2 = 0 then lower else lower + 1
    (n : ℚ) * (2 : ℚ) ^ e

/-- The nearest `float` (24 bits of significand). -/
def to_float (q : ℚ) : ℚ := round_to_precision 24 q

/-- The nearest `double` (53 bits of significand). -/
def to_double (q : ℚ) : ℚ := round_to_precision 53 q

/-- The method `Ball::next` with the rounding of its floating-point operations. The product
of the `float` component of the velocity and the `double` `dt` is a `double`; it is narrowed
to a `float` when it is passed to `down_by` / `right_by`, and its sum with the coordinate is a
`float`. -/
def Ball.next_float (b : Ball) (dt : ℚ) : Ball :=
  let result := b
  let result := { result with
    center := { result.center with
      y := to_float (result.center.y + to_float (to_double (result.velocity.height * dt))) } }
  let result := { result with
    center := { result.center with
      x := to_float (result.center.x + to_float (to_double (result.velocity.width * dt))) } }
  result

/-- No operation of `Ball::next` rounds: for each coordinate the product of the velocity
component and `dt` is a `double` and a `float`, and its sum with the coordinate is a
`float`. -/
def Ball.next_is_exact (b : Ball) (dt : ℚ) : Prop :=
  (to_double (b.velocity.height * dt) = b.velocity.height * dt ∧
    to_float (b.velocity.height * dt) = b.velocity.height * dt ∧
    to_float (b.center.y + b.velocity.height * dt) = b.center.y + b.velocity.height * dt) ∧
  (to_double (b.velocity.width * dt) = b.velocity.width * dt ∧
    to_float (b.velocity.width * dt) = b.velocity.width * dt ∧
    to_float (b.center.x + b.velocity.width * dt) = b.center.x + b.velocity.width * dt)

/-! ## The simulation step -/

/-- Modelled from the spec: the boost source is an external collaborator (section 6: a
capability exposing "draw next real number", with a variant "stub with fixed value v" that
makes every subsequent draw return `v`). Its state is the sequence of values it supplies and
the number of values drawn so far. -/
structure Random_source where
  values : Nat → ℚ
  drawn : Nat

/-- Modelled from the spec: one draw from the boost source: the value, and the source after
the draw. -/
def Random_source.next (s : Random_source) : ℚ × Random_source :=
  (s.values s.drawn, { s with drawn := s.drawn + 1 })

/-- Modelled from the spec: the stub of the boost source: every subsequent draw returns `v`. -/
def Random_source.stub_with (s : Random_source) (v : ℚ) : Random_source :=
  { s with values := fun _ => v }

/-- Modelled from the spec: `model.hxx` and `model.cxx` are not among the sources. The state
of the simulation is what the tests of `model_test.cxx` read and write: the configuration, the
paddle, the bricks, the ball and the boost source. -/
structure Model where
  config : Game_config
  paddle : Block
  bricks : List Block
  ball : Ball
  random_boost_source : Random_source

/-- Modelled from the spec: `Model::on_frame` is not among the sources; this is the
per-frame algorithm of section 4.2, which applies only when the ball is live. (1) If the
bounding box of the ball overlaps the paddle, reflect vertically. (2) Attempt `destroy_brick`;
if a brick was destroyed, reflect vertically and add one value drawn from the boost source to
the width component of the velocity. (3) If `hits_top` or `hits_bottom`, reflect vertically;
if `hits_side`, reflect horizontally. (4) Replace the ball with `next dt` of the ball with the
resulting velocity. When the ball is not live, its center is recomputed to track the paddle
and nothing else happens.

The collisions of a frame are evaluated on `ball.next dt`, the ball as it would be at the end
of the frame with the velocity of its start, and the reflections are applied to the ball of
the start of the frame: the tests of `model_test.cxx` pin this. In "destroy one brick" the
brick is destroyed in frame 4, which the ball starts at (300, 250), clear of the brick, and
would end at (300, 200), inside it; in "Off side and top" both reflections happen in frame 6,
which the ball starts at (50, 50), clear of the edges, and would end at (0, 0). -/
def Model.on_frame (m : Model) (dt : ℚ) : Model :=
  if m.ball.live then
    let next := m.ball.next dt
    let ball := if next.hits_block m.paddle then m.ball.reflect_vertical else m.ball
    let destroyed := next.destroy_brick m.bricks
    let drawn := m.random_boost_source.next
    let ball :=
      if destroyed.1 then
        { ball.reflect_vertical with
          velocity := { ball.reflect_vertical.velocity with
            width := ball.reflect_vertical.velocity.width + drawn.1 } }
      else ball
    let source := if destroyed.1 then drawn.2 else m.random_boost_source
    let ball :=
      if next.hits_top m.config || next.hits_bottom m.config then ball.reflect_vertical
      else ball
    let ball := if next.hits_side m.config then ball.reflect_horizontal else ball
    { m with ball := ball.next dt, bricks := destroyed.2, random_boost_source := source }
  else
    { m with ball := { m.ball with center := above_block m.paddle m.config } }

/-- Modelled from the spec: `Model::paddle_to` is not among the sources. It moves the paddle
horizontally, and when the ball is not live its center is recomputed at once by the rule of
`above_block`. The specification places the paddle in two ways (section 4.2: the horizontal
center of the paddle at `x`; section 8, property 5: the center of the resting ball at
`x + width / 2`, hence the left edge of the paddle at `x`); the test "Paddle Moves with Ball"
of `model_test.cxx` (`paddle_to(100)` puts the center of the ball at 150) has the second, which
is the one modelled. The coordinate is an `int`, as the coordinates of the paddle are. -/
def Model.paddle_to (m : Model) (x : Int) : Model :=
  let paddle : Block := { m.paddle with x := x }
  if m.ball.live then
    { m with paddle := paddle }
  else
    { m with paddle := paddle, ball := { m.ball with center := above_block paddle m.config } }

/-- Disjointness of the exact bounding square of the ball and a block, in the words of the
specification (no edge is rounded): the block lies strictly left of the square, or strictly
right of it, or strictly below it, or strictly above it. -/
def Ball.exact_box_disjoint (b : Ball) (block : Block) : Prop :=
  ((block.x + block.width : Int) : ℚ) < b.center.x - b.radius ∨
  b.center.x + b.radius < (block.x : ℚ) ∨
  b.center.y + b.radius < (block.y : ℚ) ∨
  ((block.y + block.height : Int) : ℚ) < b.center.y - b.radius

instance (b : Ball) (block : Block) : Decidable (b.exact_box_disjoint block) := by
  unfold Ball.exact_box_disjoint
  infer_instance

/-- A live ball of radius 5 centered at (300, 210), moving upward. -/
def sample_ball : Ball := ⟨5, ⟨300, 210⟩, ⟨0, -50⟩, true⟩

/-- Three bricks: `sample_ball` misses the first and overlaps the other two. -/
def sample_bricks : List Block := [⟨0, 0, 10, 10⟩, ⟨250, 200, 100, 20⟩, ⟨260, 200, 100, 20⟩]

/-- Two bricks that `sample_ball` misses. -/
def far_bricks : List Block := [⟨0, 0, 10, 10⟩, ⟨250, 100, 100, 20⟩]

/-- A scene of 800 by 600 pixels, a ball of radius 5. -/
def sample_config : Game_config := ⟨⟨800, 600⟩, 5, ⟨0, -50⟩⟩

/-- A ball of radius 5 whose bounding square touches the top and the right edge of the scene
of `sample_config`. -/
def corner_ball : Ball := ⟨5, ⟨795, 5⟩, ⟨0, 0⟩, true⟩

/-- A paddle of odd width 3 with top-left corner (0, 100). -/
def odd_paddle : Block := ⟨0, 100, 3, 10⟩

/-- A paddle of even width 100 with top-left corner (50, 400). -/
def even_paddle : Block := ⟨50, 400, 100, 20⟩

/-- A ball of radius 1 whose bounding square [-7/2, -3/2] x [1/2, 5/2] has fractional edges,
two of them negative. -/
def fractional_ball : Ball := ⟨1, ⟨-5 / 2, 3 / 2⟩, ⟨0, 0⟩, true⟩

/-- A fast ball of radius 5 centered at (300, 300), moving upward by 100 per second. -/
def fast_ball : Ball := ⟨5, ⟨300, 300⟩, ⟨0, -100⟩, true⟩

/-- A brick of width 100 and height 20 with top-left corner (250, 200). -/
def sample_brick : Block := ⟨250, 200, 100, 20⟩

/-- A boost source whose draws all return 14. -/
def stub_14 : Random_source := Random_source.stub_with ⟨fun n => (n : ℚ), 0⟩ 14

/-- A paddle of width 100 near the bottom of the scene of `sample_config`. -/
def low_paddle : Block := ⟨350, 550, 100, 20⟩

/-- The model of the tests: a scene of 800 by 600, a paddle near its bottom, the boost
stubbed to 14, and a live ball of radius 5 with center `(x, y)` and velocity `(vx, vy)`. -/
def test_model (bricks : List Block) (x y vx vy : Int) : Model :=
  ⟨sample_config, low_paddle, bricks, ⟨5, ⟨(x : ℚ), (y : ℚ)⟩, ⟨(vx : ℚ), (vy : ℚ)⟩, true⟩,
    stub_14⟩

/-- The start of the test "destroy one brick": one brick (250, 200, 100, 20), the ball at
(300, 400) with velocity (0, -50). -/
def brick_test : Model := test_model [sample_brick] 300 400 0 (-50)

/-- The start of the test "Off side and top": no bricks, the ball at (300, 300) with velocity
(-50, -50). -/
def corner_test : Model := test_model [] 300 300 (-50) (-50)

/-- The start of the test "Off top": no bricks, the ball at (300, 300) with velocity
(-50, 0). -/
def side_test : Model := test_model [] 300 300 (-50) 0

/-- The model of the test "destroy one brick" after three frames of one second. -/
def brick_test_3 : Model := ((brick_test.on_frame 1).on_frame 1).on_frame 1

/-- The ball that the test "destroy one brick" expects after three frames of one second. -/
def brick_expected_3 : Ball := ((brick_test.ball.next 1).next 1).next 1

/-- The model of the test "Off side and top" after five frames of one second. -/
def corner_test_5 : Model :=
  ((((corner_test.on_frame 1).on_frame 1).on_frame 1).on_frame 1).on_frame 1

/-- The ball that the test "Off side and top" expects after five frames of one second. -/
def corner_expected_5 : Ball :=
  ((((corner_test.ball.next 1).next 1).next 1).next 1).next 1

/-- The model of the test "Off top" after five frames of one second. -/
def side_test_5 : Model :=
  ((((side_test.on_frame 1).on_frame 1).on_frame 1).on_frame 1).on_frame 1

/-- The ball that the test "Off top" expects after five frames of one second. -/
def side_expected_5 : Ball :=
  ((((side_test.ball.next 1).next 1).next 1).next 1).next 1

/-- A frame at whose end the ball, moving up from (300, 53), would overlap the top edge of
the scene and a brick of the top row at once. -/
def top_brick_model : Model := test_model [⟨250, 0, 100, 20⟩] 300 53 0 (-50)

/-- A model whose ball rests on a paddle of width 100. -/
def resting_model : Model :=
  ⟨sample_config, low_paddle, [], Ball.new low_paddle sample_config, stub_14⟩

/-- The `double` nearest to 0.2, the value of the literal `0.2`. -/
def double_fifth : ℚ := 3602879701896397 / 18014398509481984

/-- A live ball of radius 5 centered at (300, 300) with velocity (1, 1). -/
def drift_ball : Ball := ⟨5, ⟨300, 300⟩, ⟨1, 1⟩, true⟩

/-- A live ball of radius 5 centered at (300, 400) with the velocity (8, -24) of the test
"ball moving freely". -/
def free_ball : Ball := ⟨5, ⟨300, 400⟩, ⟨8, -24⟩, true⟩

/-! ## Auxiliary lemmas -/

/-- The truncation of a nonnegative value is the integer just below it. -/
theorem truncate_to_int_of_nonneg {q : ℚ} {n : Int} (h0 : 0 ≤ q) (h1 : (n : ℚ) ≤ q)
    (h2 : q < n + 1) : truncate_to_int q = n := by
  unfold truncate_to_int
  rw [if_pos h0]
  exact Int.floor_eq_iff.mpr ⟨h1, h2⟩

/-- The truncation of a negative value is the integer just above it. -/
theorem truncate_to_int_of_neg {q : ℚ} {n : Int} (h0 : q < 0) (h1 : (n : ℚ) - 1 < q)
    (h2 : q ≤ n) : truncate_to_int q = n := by
  unfold truncate_to_int
  rw [if_neg (not_le.mpr h0)]
  exact Int.ceil_eq_iff.mpr ⟨h1, h2⟩

/-- Overwriting position `k` with the last element and dropping the last element removes one
occurrence of the element at position `k`, and nothing else. -/
theorem perm_set_last_dropLast {α : Type} :
    ∀ (l : List α) (k : Nat) (a last : α), l[k]? = some a → l.getLast? = some last →
      (a :: (l.set k last).dropLast).Perm l
  | [], _, _, _, hk, _ => by simp at hk
  | [x], 0, a, last, hk, _ => by
    simp at hk
    simp [hk]
  | [x], k + 1, a, last, hk, _ => by simp at hk
  | x :: y :: ys, 0, a, last, hk, hl => by
    simp at hk
    subst hk
    rw [List.getLast?_cons_cons] at hl
    obtain ⟨zs, hzs⟩ := List.getLast?_eq_some_iff.mp hl
    rw [List.set_cons_zero, hzs, ← List.cons_append, List.dropLast_concat]
    exact List.Perm.cons _ (List.perm_append_singleton last zs).symm
  | x :: y :: ys, k + 1, a, last, hk, hl => by
    rw [List.getLast?_cons_cons] at hl
    have hk2 : (y :: ys)[k]? = some a := by simpa using hk
    have ih := perm_set_last_dropLast (y :: ys) k a last hk2 hl
    have hne : (y :: ys).set k last ≠ [] := by
      cases k <;> simp
    rw [List.set_cons_succ, List.dropLast_cons_of_ne_nil hne]
    exact (List.Perm.swap x a _).trans (List.Perm.cons x ih)

/-- The loop of `destroy_brick` on a part of the collection that holds a brick the ball hits:
it stops at the first such brick. -/
theorem destroy_brick_loop_hit (b : Ball) (bricks : List Block) :
    ∀ (rest : List Block) (i : Nat), (∃ x ∈ rest, b.hits_block x = true) →
      ∃ (k : Nat) (brick : Block), rest[k]? = some brick ∧ b.hits_block brick = true ∧
        (∀ (j : Nat) (x : Block), j < k → rest[j]? = some x → b.hits_block x = false) ∧
        b.destroy_brick_loop bricks rest i
          = (true, (bricks.set (i + k) (bricks.getLastD brick)).dropLast)
  | [], _, h => by simp at h
  | brick :: rest, i, h => by
    by_cases hb : b.hits_block brick = true
    · refine ⟨0, brick, by simp, hb, ?_, ?_⟩
      · intro j x hj
        omega
      · simp [Ball.destroy_brick_loop, hb]
    · have h2 : ∃ x ∈ rest, b.hits_block x = true := by
        obtain ⟨x, hx, hx2⟩ := h
        rcases List.mem_cons.mp hx with rfl | hx
        · exact absurd hx2 hb
        · exact ⟨x, hx, hx2⟩
      obtain ⟨k, brick2, hk, hhit, hfirst, heq⟩ := destroy_brick_loop_hit b bricks rest (i + 1) h2
      refine ⟨k + 1, brick2, by simpa using hk, hhit, ?_, ?_⟩
      · intro j x hj hx
        cases j with
        | zero =>
          simp at hx
          subst hx
          simpa using hb
        | succ j =>
          exact hfirst j x (by omega) (by simpa using hx)
      · simp only [Ball.destroy_brick_loop, hb]
        rw [heq]
        simp [Nat.add_assoc, Nat.add_comm 1 k]

/-- The loop of `destroy_brick` on a part of the collection that holds no brick the ball hits:
it reaches the end and changes nothing. -/
theorem destroy_brick_loop_miss (b : Ball) (bricks : List Block) :
    ∀ (rest : List Block) (i : Nat), (∀ x ∈ rest, b.hits_block x = false) →
      b.destroy_brick_loop bricks rest i = (false, bricks)
  | [], _, _ => rfl
  | brick :: rest, i, h => by
    have hb : b.hits_block brick = false := h brick (List.mem_cons_self _ _)
    simp only [Ball.destroy_brick_loop, hb]
    exact destroy_brick_loop_miss b bricks rest (i + 1)
      (fun x hx => h x (List.mem_cons_of_mem _ hx))

/-- The loop of `destroy_brick` reports a destruction only when it visits a brick the ball
hits. -/
theorem destroy_brick_loop_true (b : Ball) (bricks : List Block) (rest : List Block) (i : Nat)
    (h : (b.destroy_brick_loop bricks rest i).1 = true) : ∃ x ∈ rest, b.hits_block x = true := by
  by_contra hne
  have hall : ∀ x ∈ rest, b.hits_block x = false := by
    intro x hx
    cases hx2 : b.hits_block x
    · rfl
    · exact absurd ⟨x, hx, hx2⟩ hne
  rw [destroy_brick_loop_miss b bricks rest i hall] at h
  simp at h

/-- The truncation of an integer value is that integer. -/
theorem truncate_to_int_intCast (n : Int) : truncate_to_int (n : ℚ) = n := by
  unfold truncate_to_int
  split <;> simp

/-- The bounding square of `sample_ball` has integer edges 295, 305 (x) and 205, 215 (y). -/
theorem sample_ball_edges :
    truncate_to_int (sample_ball.center.x - sample_ball.radius) = 295 ∧
    truncate_to_int (sample_ball.center.x + sample_ball.radius) = 305 ∧
    truncate_to_int (sample_ball.center.y - sample_ball.radius) = 205 ∧
    truncate_to_int (sample_ball.center.y + sample_ball.radius) = 215 := by
  refine ⟨?_, ?_, ?_, ?_⟩ <;>
    exact truncate_to_int_of_nonneg (by norm_num [sample_ball]) (by norm_num [sample_ball])
      (by norm_num [sample_ball])

/-- The value of `hits_block` for `sample_ball`, from the integer edges of its square. -/
theorem sample_ball_hits_block (block : Block) :
    sample_ball.hits_block block =
      if block.x + block.width < 295 ∨ 305 < block.x then false
      else if 215 < block.y ∨ block.y + block.height < 205 then false
      else true := by
  obtain ⟨h1, h2, h3, h4⟩ := sample_ball_edges
  simp only [Ball.hits_block, h1, h2, h3, h4, Block.top_right, Block.top_left, Block.bottom_left,
    Posn.right_by, Posn.down_by]

/-- Two elements at distinct positions that satisfy `p` are counted twice. -/
theorem two_le_countP {α : Type} (p : α → Bool) :
    ∀ (l : List α) (i j : Nat) (x y : α), i < j → l[i]? = some x → l[j]? = some y →
      p x = true → p y = true → 2 ≤ l.countP p
  | [], _, _, _, _, _, hi, _, _, _ => by simp at hi
  | a :: t, 0, 0, _, _, hij, _, _, _, _ => by omega
  | a :: t, 0, j + 1, x, y, _, hi, hj, hx, hy => by
    have hxa : a = x := by simpa using hi
    subst hxa
    have hmem : y ∈ t := List.getElem?_mem (by simpa using hj)
    have hpos : 0 < t.countP p := List.countP_pos_iff.mpr ⟨y, hmem, hy⟩
    rw [List.countP_cons, if_pos hx]
    omega
  | a :: t, i + 1, 0, _, _, hij, _, _, _, _ => by omega
  | a :: t, i + 1, j + 1, x, y, hij, hi, hj, hx, hy => by
    have ih := two_le_countP p t i j x y (by omega) (by simpa using hi) (by simpa using hj) hx hy
    rw [List.countP_cons]
    omega

/-- What `destroy_brick` does when the ball hits some brick: the first such brick, at index
`i`, is overwritten with the last brick and the last brick is dropped. -/
theorem destroy_brick_hit (b : Ball) (bricks : List Block)
    (h : ∃ brick ∈ bricks, b.hits_block brick = true) :
    ∃ (i : Nat) (brick last : Block),
      bricks[i]? = some brick ∧ b.hits_block brick = true ∧
      (∀ (j : Nat) (x : Block), j < i → bricks[j]? = some x → b.hits_block x = false) ∧
      bricks.getLast? = some last ∧
      b.destroy_brick bricks = (true, (bricks.set i last).dropLast) ∧
      (brick :: (bricks.set i last).dropLast).Perm bricks := by
  obtain ⟨i, brick, hi, hhit, hfirst, heq⟩ := destroy_brick_loop_hit b bricks bricks 0 h
  have hne : bricks ≠ [] := by
    rintro rfl
    simp at hi
  have hlast : bricks.getLast? = some (bricks.getLast hne) := List.getLast?_eq_getLast _ hne
  refine ⟨i, brick, bricks.getLast hne, hi, hhit, hfirst, hlast, ?_,
    perm_set_last_dropLast bricks i brick _ hi hlast⟩
  unfold Ball.destroy_brick
  rw [heq, List.getLastD_eq_getLast?, hlast]
  simp

/-- Whether `destroy_brick` reports a destruction: exactly when the ball hits some brick. -/
theorem destroy_brick_fst (b : Ball) (bricks : List Block) :
    (b.destroy_brick bricks).1 = true ↔ ∃ brick ∈ bricks, b.hits_block brick = true := by
  constructor
  · exact destroy_brick_loop_true b bricks bricks 0
  · intro h
    obtain ⟨i, brick, last, _, _, _, _, heq, _⟩ := destroy_brick_hit b bricks h
    rw [heq]

/-! ## The collision test with a block -/

/-- C1, the code at a failing input: a ball of radius 1 centered at (7/2, 1) and the block
with corner (0, 0), width 2 and height 2. The exact bounding square starts at x = 5/2,
strictly right of the block's right edge 2, so the boxes are disjoint in the sense of the
comment above `Ball::hits_block`, with a gap of 1/2; the left edge stored in an `int` is 2,
the comparison `2 < 2` fails, and `hits_block` returns true. -/
theorem hits_block_true_on_disjoint_boxes :
    (0 ≤ (Block.mk 0 0 2 2).width ∧ 0 ≤ (Block.mk 0 0 2 2).height) ∧
    Ball.exact_box_disjoint ⟨1, ⟨7 / 2, 1⟩, ⟨0, 0⟩, true⟩ ⟨0, 0, 2, 2⟩ ∧
    ((Block.mk 0 0 2 2).x + (Block.mk 0 0 2 2).width : ℚ) < 7 / 2 - 1 ∧
    truncate_to_int (7 / 2 - 1) = 2 ∧
    Ball.hits_block ⟨1, ⟨7 / 2, 1⟩, ⟨0, 0⟩, true⟩ ⟨0, 0, 2, 2⟩ = true := by
  have e1 : truncate_to_int ((7 / 2 : ℚ) - 1) = 2 :=
    truncate_to_int_of_nonneg (by norm_num) (by norm_num) (by norm_num)
  have e2 : truncate_to_int ((7 / 2 : ℚ) + 1) = 4 :=
    truncate_to_int_of_nonneg (by norm_num) (by norm_num) (by norm_num)
  have e3 : truncate_to_int ((1 : ℚ) - 1) = 0 :=
    truncate_to_int_of_nonneg (by norm_num) (by norm_num) (by norm_num)
  have e4 : truncate_to_int ((1 : ℚ) + 1) = 2 :=
    truncate_to_int_of_nonneg (by norm_num) (by norm_num) (by norm_num)
  have hcode : Ball.hits_block ⟨1, ⟨7 / 2, 1⟩, ⟨0, 0⟩, true⟩ ⟨0, 0, 2, 2⟩ = true := by
    simp only [Ball.hits_block, e1, e2, e3, e4, Block.top_right, Block.top_left,
      Block.bottom_left, Posn.right_by, Posn.down_by]
    decide
  have hspec : Ball.exact_box_disjoint ⟨1, ⟨7 / 2, 1⟩, ⟨0, 0⟩, true⟩ ⟨0, 0, 2, 2⟩ := by
    left
    norm_num
  exact ⟨by decide, hspec, by norm_num, e1, hcode⟩

/-! ## The destruction of bricks -/

/-- C2: when the ball hits at least one brick, `destroy_brick` returns true, and the bricks
after the call are the bricks before it with the first brick the ball hits (index `i`, no
brick before it is hit) overwritten by the last brick and the last position dropped: the
result has one brick less, and with the destroyed brick put back it is a rearrangement of the
original collection. The index `i` may be the last one. -/
theorem destroy_brick_removes_first_hit (b : Ball) (bricks : List Block)
    (h : ∃ brick ∈ bricks, b.hits_block brick = true) :
    ∃ (i : Nat) (brick last : Block),
      bricks[i]? = some brick ∧ b.hits_block brick = true ∧
      (∀ (j : Nat) (x : Block), j < i → bricks[j]? = some x → b.hits_block x = false) ∧
      bricks.getLast? = some last ∧
      b.destroy_brick bricks = (true, (bricks.set i last).dropLast) ∧
      (b.destroy_brick bricks).2 = (bricks.set i last).take (bricks.length - 1) ∧
      (b.destroy_brick bricks).2.length = bricks.length - 1 ∧
      (brick :: (b.destroy_brick bricks).2).Perm bricks := by
  obtain ⟨i, brick, last, hi, hhit, hfirst, hlast, heq, hperm⟩ := destroy_brick_hit b bricks h
  refine ⟨i, brick, last, hi, hhit, hfirst, hlast, heq, ?_, ?_, ?_⟩
  · rw [heq, List.dropLast_eq_take, List.length_set]
  · rw [heq, List.length_dropLast, List.length_set]
  · rw [heq]
    exact hperm

/-- C2, at a concrete input: the ball misses the first of three bricks and overlaps the other
two. -/
theorem destroy_brick_removes_first_hit_witness :
    (∃ brick ∈ sample_bricks, sample_ball.hits_block brick = true) ∧
    ∃ (i : Nat) (brick last : Block),
      sample_bricks[i]? = some brick ∧ sample_ball.hits_block brick = true ∧
      (∀ (j : Nat) (x : Block), j < i → sample_bricks[j]? = some x →
        sample_ball.hits_block x = false) ∧
      sample_bricks.getLast? = some last ∧
      sample_ball.destroy_brick sample_bricks = (true, (sample_bricks.set i last).dropLast) ∧
      (sample_ball.destroy_brick sample_bricks).2
        = (sample_bricks.set i last).take (sample_bricks.length - 1) ∧
      (sample_ball.destroy_brick sample_bricks).2.length = sample_bricks.length - 1 ∧
      (brick :: (sample_ball.destroy_brick sample_bricks).2).Perm sample_bricks :=
  have hyp : ∃ brick ∈ sample_bricks, sample_ball.hits_block brick = true :=
    ⟨⟨250, 200, 100, 20⟩, by simp [sample_bricks], by rw [sample_ball_hits_block]; decide⟩
  ⟨hyp, destroy_brick_removes_first_hit sample_ball sample_bricks hyp⟩

/-- C3: when the ball hits no brick of the collection (the empty collection included),
`destroy_brick` returns false and the collection is unchanged; and `destroy_brick` returns
true only when the ball hits some brick of the collection. -/
theorem destroy_brick_no_hit (b : Ball) (bricks : List Block) :
    ((∀ brick ∈ bricks, b.hits_block brick = false) →
      b.destroy_brick bricks = (false, bricks)) ∧
    ((b.destroy_brick bricks).1 = true → ∃ brick ∈ bricks, b.hits_block brick = true) :=
  ⟨destroy_brick_loop_miss b bricks bricks 0, (destroy_brick_fst b bricks).mp⟩

/-- C3, at a concrete input: two bricks far from the ball. -/
theorem destroy_brick_no_hit_witness :
    (∀ brick ∈ far_bricks, sample_ball.hits_block brick = false) ∧
    sample_ball.destroy_brick far_bricks = (false, far_bricks) :=
  have hyp : ∀ brick ∈ far_bricks, sample_ball.hits_block brick = false := by
    intro brick hmem
    simp only [far_bricks, List.mem_cons, List.mem_singleton, List.not_mem_nil, or_false] at hmem
    rcases hmem with rfl | rfl <;> rw [sample_ball_hits_block] <;> decide
  ⟨hyp, (destroy_brick_no_hit sample_ball far_bricks).1 hyp⟩

/-- C4: one call destroys at most one brick. When `destroy_brick` returns true the collection
is one brick shorter, when it returns false it has the same length; and when the ball hits
bricks at two distinct indices, it still hits some brick of the collection after the call. -/
theorem destroy_brick_at_most_one (b : Ball) (bricks : List Block) :
    ((b.destroy_brick bricks).1 = true →
      (b.destroy_brick bricks).2.length + 1 = bricks.length) ∧
    ((b.destroy_brick bricks).1 = false →
      (b.destroy_brick bricks).2.length = bricks.length) ∧
    (∀ (i j : Nat) (x y : Block), i ≠ j → bricks[i]? = some x → bricks[j]? = some y →
      b.hits_block x = true → b.hits_block y = true →
      ∃ brick ∈ (b.destroy_brick bricks).2, b.hits_block brick = true) := by
  refine ⟨?_, ?_, ?_⟩
  · intro htrue
    obtain ⟨i, brick, last, _, _, _, _, heq, hperm⟩ :=
      destroy_brick_hit b bricks ((destroy_brick_fst b bricks).mp htrue)
    rw [heq]
    simpa using hperm.length_eq
  · intro hfalse
    have hall : ∀ brick ∈ bricks, b.hits_block brick = false := by
      intro brick hmem
      cases hb : b.hits_block brick
      · rfl
      · have := (destroy_brick_fst b bricks).mpr ⟨brick, hmem, hb⟩
        rw [hfalse] at this
        exact absurd this (by simp)
    unfold Ball.destroy_brick
    rw [destroy_brick_loop_miss b bricks bricks 0 hall]
  · intro i j x y hij hi hj hx hy
    have htwo : 2 ≤ bricks.countP (fun brick => b.hits_block brick) := by
      rcases Nat.lt_or_gt_of_ne hij with hlt | hgt
      · exact two_le_countP _ bricks i j x y hlt hi hj hx hy
      · exact two_le_countP _ bricks j i y x hgt hj hi hy hx
    obtain ⟨k, brick, last, _, hhit, _, _, heq, hperm⟩ :=
      destroy_brick_hit b bricks ⟨x, List.getElem?_mem hi, hx⟩
    have hcount := hperm.countP_eq (fun brick => b.hits_block brick)
    rw [List.countP_cons, if_pos hhit] at hcount
    have hpos : 0 < ((bricks.set k last).dropLast).countP (fun brick => b.hits_block brick) := by
      omega
    rw [heq]
    exact List.countP_pos_iff.mp hpos

/-- C4, at a concrete input: the ball overlaps the bricks at indices 1 and 2 of three. -/
theorem destroy_brick_at_most_one_witness :
    (sample_ball.destroy_brick sample_bricks).1 = true ∧
    (sample_ball.destroy_brick sample_bricks).2.length + 1 = sample_bricks.length ∧
    (1 ≠ 2 ∧ sample_bricks[1]? = some ⟨250, 200, 100, 20⟩ ∧
      sample_bricks[2]? = some ⟨260, 200, 100, 20⟩ ∧
      sample_ball.hits_block ⟨250, 200, 100, 20⟩ = true ∧
      sample_ball.hits_block ⟨260, 200, 100, 20⟩ = true) ∧
    ∃ brick ∈ (sample_ball.destroy_brick sample_bricks).2, sample_ball.hits_block brick = true :=
  have h1 : sample_ball.hits_block ⟨250, 200, 100, 20⟩ = true := by
    rw [sample_ball_hits_block]; decide
  have h2 : sample_ball.hits_block ⟨260, 200, 100, 20⟩ = true := by
    rw [sample_ball_hits_block]; decide
  have htrue : (sample_ball.destroy_brick sample_bricks).1 = true :=
    (destroy_brick_fst sample_ball sample_bricks).mpr
      ⟨⟨250, 200, 100, 20⟩, by simp [sample_bricks], h1⟩
  ⟨htrue, (destroy_brick_at_most_one sample_ball sample_bricks).1 htrue,
    ⟨by decide, rfl, rfl, h1, h2⟩,
    (destroy_brick_at_most_one sample_ball sample_bricks).2.2 1 2 _ _ (by decide) rfl rfl h1 h2⟩

/-! ## Motion -/

/-- In exact arithmetic sub-steps accumulate: the center of `(b.next dt1).next dt2` is
`center + velocity * (dt1 + dt2)`, and the balls `(b.next dt1).next dt2`,
`(b.next dt2).next dt1` and `b.next (dt1 + dt2)` are equal under `operator==`. -/
theorem next_next_accumulates (b : Ball) (dt1 dt2 : ℚ) :
    ((b.next dt1).next dt2).center
      = ⟨b.center.x + b.velocity.width * (dt1 + dt2),
          b.center.y + b.velocity.height * (dt1 + dt2)⟩ ∧
    Ball.op_eq ((b.next dt1).next dt2) ((b.next dt2).next dt1) = true ∧
    Ball.op_eq ((b.next dt2).next dt1) (b.next (dt1 + dt2)) = true ∧
    Ball.op_eq ((b.next dt1).next dt2) (b.next (dt1 + dt2)) = true := by
  refine ⟨?_, ?_, ?_, ?_⟩
  · simp only [Ball.next, Posn.down_by, Posn.right_by, Posn.mk.injEq]
    constructor <;> ring
  all_goals
    simp only [Ball.op_eq, Ball.next, Posn.down_by, Posn.right_by, Bool.and_eq_true, beq_iff_eq,
      Posn.mk.injEq, and_true]
    constructor <;> ring

/-- C7: a step of length zero is the identity: `b.next 0` equals `b` under `operator==`. -/
theorem next_zero (b : Ball) : Ball.op_eq (b.next 0) b = true := by
  simp [Ball.op_eq, Ball.next, Posn.down_by, Posn.right_by]

/-! ## The edges of the scene -/

/-- C8: the three edge predicates are the inequalities of the specification, all strict, and
`hits_top` does not depend on the configuration; a ball whose bounding square exactly touches
an edge does not hit it. -/
theorem edge_predicates (b : Ball) (config : Game_config) :
    (b.hits_bottom config = true ↔ b.center.y + b.radius > (config.scene_dims.height : ℚ)) ∧
    (b.hits_top config = true ↔ b.center.y - b.radius < 0) ∧
    (∀ other : Game_config, b.hits_top other = b.hits_top config) ∧
    (b.hits_side config = true ↔
      (b.center.x - b.radius < 0 ∨ b.center.x + b.radius > (config.scene_dims.width : ℚ))) ∧
    (b.center.y - b.radius = 0 → b.hits_top config = false) ∧
    (b.center.y + b.radius = (config.scene_dims.height : ℚ) → b.hits_bottom config = false) ∧
    (b.center.x - b.radius = 0 → b.center.x + b.radius ≤ (config.scene_dims.width : ℚ) →
      b.hits_side config = false) ∧
    (0 ≤ b.center.x - b.radius → b.center.x + b.radius = (config.scene_dims.width : ℚ) →
      b.hits_side config = false) := by
  refine ⟨?_, ?_, ?_, ?_, ?_, ?_, ?_, ?_⟩
  · simp [Ball.hits_bottom]
  · simp [Ball.hits_top]
  · intro other
    rfl
  · simp [Ball.hits_side]
  · intro h
    simp [Ball.hits_top, h]
  · intro h
    simp [Ball.hits_bottom, h]
  · intro h1 h2
    simp only [Ball.hits_side, h1, lt_self_iff_false, false_or, gt_iff_lt, ite_eq_right_iff]
    intro h3
    exact absurd h3 (not_lt.mpr h2)
  · intro h1 h2
    simp only [Ball.hits_side, h2, gt_iff_lt, lt_self_iff_false, or_false, ite_eq_right_iff]
    intro h3
    exact absurd h3 (not_lt.mpr h1)

/-- C8, at a concrete input: a ball of radius 5 centered at (795, 5) in a scene of 800 by 600
touches the top edge and the right edge, and hits neither. -/
theorem edge_predicates_witness :
    (corner_ball.center.y - corner_ball.radius = 0 ∧
      0 ≤ corner_ball.center.x - corner_ball.radius ∧
      corner_ball.center.x + corner_ball.radius = (sample_config.scene_dims.width : ℚ)) ∧
    corner_ball.hits_top sample_config = false ∧
    corner_ball.hits_side sample_config = false :=
  have h1 : corner_ball.center.y - corner_ball.radius = 0 := by norm_num [corner_ball]
  have h2 : 0 ≤ corner_ball.center.x - corner_ball.radius := by norm_num [corner_ball]
  have h3 : corner_ball.center.x + corner_ball.radius
      = (sample_config.scene_dims.width : ℚ) := by norm_num [corner_ball, sample_config]
  ⟨⟨h1, h2, h3⟩, (edge_predicates corner_ball sample_config).2.2.2.2.1 h1,
    (edge_predicates corner_ball sample_config).2.2.2.2.2.2.2 h2 h3⟩

/-! ## Reflection -/

/-- C9: `reflect_vertical` replaces the height component of the velocity by its negation and
leaves the width component, the center, the radius and the live flag unchanged;
`reflect_horizontal` replaces the width component by its negation and leaves the height
component, the center, the radius and the live flag unchanged. -/
theorem reflect_negates (b : Ball) :
    (b.reflect_vertical.velocity.height = - b.velocity.height ∧
      b.reflect_vertical.velocity.width = b.velocity.width ∧
      b.reflect_vertical.center = b.center ∧
      b.reflect_vertical.radius = b.radius ∧
      b.reflect_vertical.live = b.live) ∧
    (b.reflect_horizontal.velocity.width = - b.velocity.width ∧
      b.reflect_horizontal.velocity.height = b.velocity.height ∧
      b.reflect_horizontal.center = b.center ∧
      b.reflect_horizontal.radius = b.radius ∧
      b.reflect_horizontal.live = b.live) := by
  refine ⟨⟨?_, rfl, rfl, rfl, rfl⟩, ⟨?_, rfl, rfl, rfl, rfl⟩⟩
  · simp [Ball.reflect_vertical]
  · simp [Ball.reflect_horizontal]

/-! ## Construction -/

/-- C10, as the code has it: the center of the constructed ball is at
`x = paddle.x + paddle.width / 2`, the division being the division of integers, which rounds
toward zero; when the width is even this is the exact half, and the center is as far from the
left edge of the paddle as from its right edge. The center is above the top edge of the paddle
by `ball_radius + 1`: `y = paddle.y - (ball_radius + 1)`, so the bottom of the bounding square
is exactly one unit above the top edge. -/
theorem new_ball_center (paddle : Block) (config : Game_config) :
    (Ball.new paddle config).center.x = ((paddle.x + Int.tdiv paddle.width 2 : Int) : ℚ) ∧
    (2 ∣ paddle.width →
      (Ball.new paddle config).center.x = (paddle.x : ℚ) + (paddle.width : ℚ) / 2 ∧
      (Ball.new paddle config).center.x - (paddle.x : ℚ)
        = ((paddle.x : ℚ) + (paddle.width : ℚ)) - (Ball.new paddle config).center.x) ∧
    (Ball.new paddle config).center.y = (paddle.y : ℚ) - ((config.ball_radius : ℚ) + 1) ∧
    (Ball.new paddle config).center.y + (Ball.new paddle config).radius
      = (paddle.y : ℚ) - 1 := by
  have hx : (Ball.new paddle config).center.x
      = ((paddle.x + Int.tdiv paddle.width 2 : Int) : ℚ) := rfl
  have hy : (Ball.new paddle config).center.y
      = ((paddle.y - (1 + config.ball_radius) : Int) : ℚ) := rfl
  have hr : (Ball.new paddle config).radius = (config.ball_radius : ℚ) := rfl
  refine ⟨hx, ?_, ?_, ?_⟩
  · rintro ⟨k, hk⟩
    have hdiv : Int.tdiv paddle.width 2 = k := by
      rw [hk]
      exact Int.mul_tdiv_cancel_left k (by decide)
    rw [hx, hdiv, hk]
    push_cast
    constructor <;> ring
  · rw [hy]
    push_cast
    ring
  · rw [hy, hr]
    push_cast
    ring

/-- C10, at a concrete input: a paddle of even width 100 at (50, 400) and a ball of radius 5;
the center of the ball is (100, 394). -/
theorem new_ball_center_witness :
    2 ∣ even_paddle.width ∧
    (Ball.new even_paddle sample_config).center.x
      = (even_paddle.x : ℚ) + (even_paddle.width : ℚ) / 2 ∧
    (Ball.new even_paddle sample_config).center.x - (even_paddle.x : ℚ)
      = ((even_paddle.x : ℚ) + (even_paddle.width : ℚ))
        - (Ball.new even_paddle sample_config).center.x :=
  have hyp : 2 ∣ even_paddle.width := ⟨50, rfl⟩
  ⟨hyp, (new_ball_center even_paddle sample_config).2.1 hyp⟩

/-- C10, counterexample: over a paddle of width 3 with left edge 0 the center of the
constructed ball is at x = 1, not at the exact half 3/2: it is 1 away from the left edge of
the paddle and 2 away from its right edge. -/
theorem new_ball_center_counterexample :
    (Ball.new odd_paddle sample_config).center.x = 1 ∧
    (Ball.new odd_paddle sample_config).center.x
      ≠ (odd_paddle.x : ℚ) + (odd_paddle.width : ℚ) / 2 ∧
    (Ball.new odd_paddle sample_config).center.x - (odd_paddle.x : ℚ)
      ≠ ((odd_paddle.x : ℚ) + (odd_paddle.width : ℚ))
        - (Ball.new odd_paddle sample_config).center.x := by
  have hx : (Ball.new odd_paddle sample_config).center.x = 1 := by
    have h : (Ball.new odd_paddle sample_config).center.x
        = ((odd_paddle.x + Int.tdiv odd_paddle.width 2 : Int) : ℚ) := rfl
    have hdiv : odd_paddle.x + Int.tdiv odd_paddle.width 2 = 1 := by decide
    rw [h, hdiv]
    norm_num
  refine ⟨hx, ?_, ?_⟩ <;> rw [hx] <;> norm_num [odd_paddle]

/-! ## Auxiliary lemmas on the conversion to `int` -/

/-- An integer above a value is above its truncation. -/
theorem truncate_to_int_le {q : ℚ} {n : Int} (h : q ≤ (n : ℚ)) : truncate_to_int q ≤ n := by
  unfold truncate_to_int
  split
  · exact Int.cast_le.mp (le_trans (Int.floor_le q) h)
  · exact Int.ceil_le.mpr h

/-- An integer below a value is below its truncation. -/
theorem le_truncate_to_int {q : ℚ} {n : Int} (h : (n : ℚ) ≤ q) : n ≤ truncate_to_int q := by
  unfold truncate_to_int
  split
  · exact Int.le_floor.mpr h
  · exact Int.cast_le.mp (le_trans h (Int.le_ceil q))

/-- The value of `hits_block` for a ball whose radius and center coordinates are integers. -/
theorem hits_block_int_ball (b : Ball) (r cx cy : Int) (hr : b.radius = (r : ℚ))
    (hx : b.center.x = (cx : ℚ)) (hy : b.center.y = (cy : ℚ)) (block : Block) :
    b.hits_block block =
      if block.x + block.width < cx - r ∨ cx + r < block.x then false
      else if cy + r < block.y ∨ block.y + block.height < cy - r then false
      else true := by
  have e1 : truncate_to_int (b.center.x - b.radius) = cx - r := by
    rw [hx, hr, ← Int.cast_sub]
    exact truncate_to_int_intCast _
  have e2 : truncate_to_int (b.center.x + b.radius) = cx + r := by
    rw [hx, hr, ← Int.cast_add]
    exact truncate_to_int_intCast _
  have e3 : truncate_to_int (b.center.y - b.radius) = cy - r := by
    rw [hy, hr, ← Int.cast_sub]
    exact truncate_to_int_intCast _
  have e4 : truncate_to_int (b.center.y + b.radius) = cy + r := by
    rw [hy, hr, ← Int.cast_add]
    exact truncate_to_int_intCast _
  simp only [Ball.hits_block, e1, e2, e3, e4, Block.top_right, Block.top_left, Block.bottom_left,
    Posn.right_by, Posn.down_by]

/-! ## Construction, continued -/

/-- C11: the constructed ball is not live, its radius is `config.ball_radius` and both
components of its velocity are those of `config.ball_velocity_0`; none of the three depends
on the paddle. -/
theorem new_ball_fields (paddle : Block) (config : Game_config) :
    (Ball.new paddle config).live = false ∧
    (Ball.new paddle config).radius = (config.ball_radius : ℚ) ∧
    (Ball.new paddle config).velocity.width = (config.ball_velocity_0.width : ℚ) ∧
    (Ball.new paddle config).velocity.height = (config.ball_velocity_0.height : ℚ) ∧
    (∀ other : Block,
      (Ball.new other config).live = (Ball.new paddle config).live ∧
      (Ball.new other config).radius = (Ball.new paddle config).radius ∧
      (Ball.new other config).velocity = (Ball.new paddle config).velocity) :=
  ⟨rfl, rfl, rfl, rfl, fun _ => ⟨rfl, rfl, rfl⟩⟩

/-! ## Equality -/

/-- C12: `a == b` is true exactly when the centers, the radii, the velocities and the live
flags are equal, and `a != b` is true exactly when `a == b` is false. Hence a ball and the
same ball with the live flag flipped are unequal, and so are a ball and the same ball with one
velocity component replaced by a different value. -/
theorem op_eq_iff (a b : Ball) :
    (Ball.op_eq a b = true ↔
      a.center = b.center ∧ a.radius = b.radius ∧ a.velocity = b.velocity ∧ a.live = b.live) ∧
    (Ball.op_ne a b = true ↔ Ball.op_eq a b = false) ∧
    Ball.op_ne a { a with live := !a.live } = true ∧
    (∀ w : ℚ, w ≠ a.velocity.width →
      Ball.op_ne a { a with velocity := ⟨w, a.velocity.height⟩ } = true) ∧
    (∀ h : ℚ, h ≠ a.velocity.height →
      Ball.op_ne a { a with velocity := ⟨a.velocity.width, h⟩ } = true) := by
  refine ⟨?_, ?_, ?_, ?_, ?_⟩
  · simp [Ball.op_eq, and_assoc]
  · simp [Ball.op_ne]
  · cases hl : a.live <;> simp [Ball.op_ne, Ball.op_eq, hl]
  · intro w hw
    have hne : ¬ a.velocity = ⟨w, a.velocity.height⟩ := by
      intro h
      exact hw (congrArg Dims.width h).symm
    simp [Ball.op_ne, Ball.op_eq, hne]
  · intro h hh
    have hne : ¬ a.velocity = ⟨a.velocity.width, h⟩ := by
      intro h2
      exact hh (congrArg Dims.height h2).symm
    simp [Ball.op_ne, Ball.op_eq, hne]

/-- C12, at a concrete input: `sample_ball`, whose velocity is (0, -50), against the same ball
with horizontal velocity 14. -/
theorem op_eq_iff_witness :
    (14 : ℚ) ≠ sample_ball.velocity.width ∧
    Ball.op_ne sample_ball { sample_ball with velocity := ⟨14, sample_ball.velocity.height⟩ }
      = true :=
  have hyp : (14 : ℚ) ≠ sample_ball.velocity.width := by norm_num [sample_ball]
  ⟨hyp, (op_eq_iff sample_ball sample_ball).2.2.2.1 14 hyp⟩

/-! ## The collision test with a block, continued -/

/-- C16: tunneling is possible. The ball of radius 5 at (300, 300) moving upward by 100 per
second and the brick (250, 200, 100, 20): with the step `dt = 2` neither the ball nor
`next 2` (at (300, 100)) hits the brick, yet `next 1` (at (300, 200)) does. -/
theorem tunneling_possible :
    ∃ (b : Ball) (block : Block) (dt t : ℚ),
      0 < block.width ∧ 0 < block.height ∧ 0 < dt ∧ 0 < t ∧ t < dt ∧
      b.hits_block block = false ∧
      (b.next dt).hits_block block = false ∧
      (b.next t).hits_block block = true := by
  refine ⟨fast_ball, sample_brick, 2, 1, by decide, by decide, by norm_num, by norm_num,
    by norm_num, ?_, ?_, ?_⟩
  · rw [hits_block_int_ball fast_ball 5 300 300 (by norm_num [fast_ball])
      (by norm_num [fast_ball]) (by norm_num [fast_ball])]
    decide
  · rw [hits_block_int_ball (fast_ball.next 2) 5 300 100 (by norm_num [fast_ball, Ball.next])
      (by norm_num [fast_ball, Ball.next, Posn.right_by])
      (by norm_num [fast_ball, Ball.next, Posn.down_by])]
    decide
  · rw [hits_block_int_ball (fast_ball.next 1) 5 300 200 (by norm_num [fast_ball, Ball.next])
      (by norm_num [fast_ball, Ball.next, Posn.right_by])
      (by norm_num [fast_ball, Ball.next, Posn.down_by])]
    decide

/-- C17: the conversion of the edges to `int` never hides a collision. For every ball and
every block, when the exact bounding square of the ball and the block are not disjoint (they
overlap or touch), `hits_block` returns true. -/
theorem hits_block_of_exact_overlap (b : Ball) (block : Block)
    (h : ¬ b.exact_box_disjoint block) : b.hits_block block = true := by
  unfold Ball.exact_box_disjoint at h
  push_neg at h
  obtain ⟨h1, h2, h3, h4⟩ := h
  have e1 := truncate_to_int_le h1
  have e2 := le_truncate_to_int h2
  have e3 := le_truncate_to_int h3
  have e4 := truncate_to_int_le h4
  simp only [Ball.hits_block, Block.top_right, Block.top_left, Block.bottom_left,
    Posn.right_by, Posn.down_by]
  rw [if_neg (by omega), if_neg (by omega)]

/-- C17, at a concrete input: a ball with fractional and negative edges (its square is
[-7/2, -3/2] x [1/2, 5/2]) that overlaps the block (-2, 2, 4, 4). -/
theorem hits_block_of_exact_overlap_witness :
    ¬ fractional_ball.exact_box_disjoint ⟨-2, 2, 4, 4⟩ ∧
    fractional_ball.hits_block ⟨-2, 2, 4, 4⟩ = true :=
  have hyp : ¬ fractional_ball.exact_box_disjoint ⟨-2, 2, 4, 4⟩ := by
    unfold Ball.exact_box_disjoint
    norm_num [fractional_ball]
  ⟨hyp, hits_block_of_exact_overlap fractional_ball ⟨-2, 2, 4, 4⟩ hyp⟩

/-- C18: for a ball whose radius and center coordinates are integers, `hits_block` is the
exact overlap test of the bounding square with the block: it returns true exactly when
`center.x - radius ≤ block.x + block.width`, `block.x ≤ center.x + radius`,
`block.y ≤ center.y + radius` and `center.y - radius ≤ block.y + block.height`. -/
theorem hits_block_int_exact (b : Ball) (block : Block) (r cx cy : Int)
    (hr : b.radius = (r : ℚ)) (hx : b.center.x = (cx : ℚ)) (hy : b.center.y = (cy : ℚ)) :
    b.hits_block block = true ↔
      (b.center.x - b.radius ≤ ((block.x + block.width : Int) : ℚ) ∧
        (block.x : ℚ) ≤ b.center.x + b.radius ∧
        (block.y : ℚ) ≤ b.center.y + b.radius ∧
        b.center.y - b.radius ≤ ((block.y + block.height : Int) : ℚ)) := by
  rw [hits_block_int_ball b r cx cy hr hx hy block, hr, hx, hy]
  have c1 : ((cx : ℚ) - (r : ℚ) ≤ ((block.x + block.width : Int) : ℚ))
      ↔ cx - r ≤ block.x + block.width := by
    rw [← Int.cast_sub, Int.cast_le]
  have c2 : ((block.x : ℚ) ≤ (cx : ℚ) + (r : ℚ)) ↔ block.x ≤ cx + r := by
    rw [← Int.cast_add, Int.cast_le]
  have c3 : ((block.y : ℚ) ≤ (cy : ℚ) + (r : ℚ)) ↔ block.y ≤ cy + r := by
    rw [← Int.cast_add, Int.cast_le]
  have c4 : ((cy : ℚ) - (r : ℚ) ≤ ((block.y + block.height : Int) : ℚ))
      ↔ cy - r ≤ block.y + block.height := by
    rw [← Int.cast_sub, Int.cast_le]
  rw [c1, c2, c3, c4]
  split_ifs with h1 h2
  · simp only [Bool.false_eq_true, false_iff]
    omega
  · simp only [Bool.false_eq_true, false_iff]
    omega
  · simp only [true_iff]
    omega

/-- C18, at a concrete input: `sample_ball` (radius 5, center (300, 210)) and the brick
(250, 200, 100, 20). -/
theorem hits_block_int_exact_witness :
    (sample_ball.radius = ((5 : Int) : ℚ) ∧ sample_ball.center.x = ((300 : Int) : ℚ) ∧
      sample_ball.center.y = ((210 : Int) : ℚ)) ∧
    (sample_ball.hits_block sample_brick = true ↔
      (sample_ball.center.x - sample_ball.radius
          ≤ ((sample_brick.x + sample_brick.width : Int) : ℚ) ∧
        (sample_brick.x : ℚ) ≤ sample_ball.center.x + sample_ball.radius ∧
        (sample_brick.y : ℚ) ≤ sample_ball.center.y + sample_ball.radius ∧
        sample_ball.center.y - sample_ball.radius
          ≤ ((sample_brick.y + sample_brick.height : Int) : ℚ))) :=
  have h1 : sample_ball.radius = ((5 : Int) : ℚ) := by norm_num [sample_ball]
  have h2 : sample_ball.center.x = ((300 : Int) : ℚ) := by norm_num [sample_ball]
  have h3 : sample_ball.center.y = ((210 : Int) : ℚ) := by norm_num [sample_ball]
  ⟨⟨h1, h2, h3⟩, hits_block_int_exact sample_ball sample_brick 5 300 210 h1 h2 h3⟩

/-- C19: a freshly constructed ball does not collide with the paddle it rests on: the bottom
edge of its bounding square, converted to `int`, is `paddle.y - 1`, strictly above the top of
the paddle, so `hits_block paddle` is false for every paddle and every configuration. -/
theorem new_ball_misses_paddle (paddle : Block) (config : Game_config) :
    truncate_to_int ((Ball.new paddle config).center.y + (Ball.new paddle config).radius)
      = paddle.y - 1 ∧
    (Ball.new paddle config).hits_block paddle = false := by
  have hcy : (Ball.new paddle config).center.y
      = ((paddle.y - (1 + config.ball_radius) : Int) : ℚ) := rfl
  have hcx : (Ball.new paddle config).center.x
      = ((paddle.x + Int.tdiv paddle.width 2 : Int) : ℚ) := rfl
  have hr : (Ball.new paddle config).radius = (config.ball_radius : ℚ) := rfl
  constructor
  · rw [hcy, hr, ← Int.cast_add, truncate_to_int_intCast]
    omega
  · rw [hits_block_int_ball _ _ _ _ hr hcx hcy paddle]
    split_ifs with h1 h2
    · rfl
    · rfl
    · omega

/-! ## Auxiliary lemmas on the simulation step -/

/-- A call of `destroy_brick` that returns false leaves the bricks as they were. -/
theorem destroy_brick_false (b : Ball) (bricks : List Block)
    (h : (b.destroy_brick bricks).1 = false) : (b.destroy_brick bricks).2 = bricks := by
  have hall : ∀ brick ∈ bricks, b.hits_block brick = false := by
    intro brick hmem
    cases hb : b.hits_block brick
    · rfl
    · have htrue := (destroy_brick_fst b bricks).mpr ⟨brick, hmem, hb⟩
      rw [h] at htrue
      exact absurd htrue (by simp)
  unfold Ball.destroy_brick
  rw [destroy_brick_loop_miss b bricks bricks 0 hall]

/-- A call of `destroy_brick` that returns true shortens the collection by one brick. -/
theorem destroy_brick_true_length (b : Ball) (bricks : List Block)
    (h : (b.destroy_brick bricks).1 = true) :
    (b.destroy_brick bricks).2.length + 1 = bricks.length := by
  obtain ⟨i, brick, last, _, _, _, _, heq, hperm⟩ :=
    destroy_brick_hit b bricks ((destroy_brick_fst b bricks).mp h)
  rw [heq]
  simpa using hperm.length_eq

/-- The ball after a frame in which it is live: some ball at the position of the start of
the frame, advanced by `next dt`. -/
theorem on_frame_live_ball (m : Model) (dt : ℚ) (hlive : m.ball.live = true) :
    ∃ moved : Ball, moved.center = m.ball.center ∧ (m.on_frame dt).ball = moved.next dt := by
  simp only [Model.on_frame, hlive, if_true]
  refine ⟨_, ?_, rfl⟩
  split_ifs <;> rfl

/-- The bricks, the boost source, the paddle and the configuration after a frame in which the
ball is live. -/
theorem on_frame_live_bricks (m : Model) (dt : ℚ) (hlive : m.ball.live = true) :
    (m.on_frame dt).bricks = ((m.ball.next dt).destroy_brick m.bricks).2 ∧
    (m.on_frame dt).random_boost_source =
      (if ((m.ball.next dt).destroy_brick m.bricks).1 then m.random_boost_source.next.2
      else m.random_boost_source) ∧
    (m.on_frame dt).paddle = m.paddle ∧
    (m.on_frame dt).config = m.config := by
  unfold Model.on_frame
  rw [if_pos hlive]
  exact ⟨rfl, rfl, rfl, rfl⟩

/-- The ball after a frame in which it is live, from the four collision tests of the frame. -/
theorem on_frame_live_cases (m : Model) (dt : ℚ) (hlive : m.ball.live = true)
    (paddle_hit brick_hit edge_hit side_hit : Bool)
    (hp : (m.ball.next dt).hits_block m.paddle = paddle_hit)
    (hd : ((m.ball.next dt).destroy_brick m.bricks).1 = brick_hit)
    (he : ((m.ball.next dt).hits_top m.config || (m.ball.next dt).hits_bottom m.config)
      = edge_hit)
    (hs : (m.ball.next dt).hits_side m.config = side_hit) :
    (m.on_frame dt).ball =
      Ball.next
        (let ball := if paddle_hit then m.ball.reflect_vertical else m.ball
         let ball :=
          if brick_hit then
            { ball.reflect_vertical with
              velocity := { ball.reflect_vertical.velocity with
                width := ball.reflect_vertical.velocity.width + m.random_boost_source.next.1 } }
          else ball
         let ball := if edge_hit then ball.reflect_vertical else ball
         if side_hit then ball.reflect_horizontal else ball) dt := by
  subst hp hd he hs
  simp only [Model.on_frame, hlive, if_true]

/-- A frame in which the live ball hits nothing moves the ball by `next dt` and changes
nothing else. -/
theorem on_frame_free (m : Model) (dt : ℚ) (hlive : m.ball.live = true)
    (hp : (m.ball.next dt).hits_block m.paddle = false)
    (hd : ((m.ball.next dt).destroy_brick m.bricks).1 = false)
    (ht : (m.ball.next dt).hits_top m.config = false)
    (hb : (m.ball.next dt).hits_bottom m.config = false)
    (hs : (m.ball.next dt).hits_side m.config = false) :
    m.on_frame dt = { m with ball := m.ball.next dt } := by
  have hbricks := destroy_brick_false _ _ hd
  unfold Model.on_frame
  simp only [hlive, if_true, hp, hd, ht, hb, hs, hbricks, Bool.or_self, Bool.false_eq_true,
    if_false]

/-- The ball of `test_model` as it would be after one second: radius 5, center
`(x + vx, y + vy)`. -/
theorem test_model_next (bricks : List Block) (x y vx vy : Int) :
    (test_model bricks x y vx vy).ball.next 1
      = ⟨5, ⟨((x + vx : Int) : ℚ), ((y + vy : Int) : ℚ)⟩, ⟨(vx : ℚ), (vy : ℚ)⟩, true⟩ := by
  simp [test_model, Ball.next, Posn.down_by, Posn.right_by]

/-- The collision tests of a frame of one second of `test_model`, in integers. -/
theorem test_model_tests (bricks : List Block) (x y vx vy : Int) :
    (∀ block : Block,
      ((test_model bricks x y vx vy).ball.next 1).hits_block block =
        if block.x + block.width < x + vx - 5 ∨ x + vx + 5 < block.x then false
        else if y + vy + 5 < block.y ∨ block.y + block.height < y + vy - 5 then false
        else true) ∧
    (((test_model bricks x y vx vy).ball.next 1).hits_top sample_config
      = decide (y + vy < 5)) ∧
    (((test_model bricks x y vx vy).ball.next 1).hits_bottom sample_config
      = decide (600 < y + vy + 5)) ∧
    (((test_model bricks x y vx vy).ball.next 1).hits_side sample_config
      = decide (x + vx < 5 ∨ 800 < x + vx + 5)) := by
  rw [test_model_next]
  refine ⟨?_, ?_, ?_, ?_⟩
  · intro block
    exact hits_block_int_ball _ 5 (x + vx) (y + vy) (by norm_num) rfl rfl block
  · simp only [Ball.hits_top]
    have h : ((((y + vy : Int) : ℚ) - 5 < 0) ↔ y + vy < 5) := by
      rw [sub_neg]
      exact_mod_cast Iff.rfl
    by_cases hc : y + vy < 5
    · rw [if_pos (h.mpr hc), decide_eq_true hc]
    · rw [if_neg (mt h.mp hc), decide_eq_false hc]
  · simp only [Ball.hits_bottom, sample_config]
    have h : ((((y + vy : Int) : ℚ) + 5 > ((600 : Int) : ℚ)) ↔ 600 < y + vy + 5) := by
      rw [gt_iff_lt]
      exact_mod_cast Iff.rfl
    by_cases hc : 600 < y + vy + 5
    · rw [if_pos (h.mpr hc), decide_eq_true hc]
    · rw [if_neg (mt h.mp hc), decide_eq_false hc]
  · simp only [Ball.hits_side, sample_config]
    have h1 : ((((x + vx : Int) : ℚ) - 5 < 0) ↔ x + vx < 5) := by
      rw [sub_neg]
      exact_mod_cast Iff.rfl
    have h2 : ((((x + vx : Int) : ℚ) + 5 > ((800 : Int) : ℚ)) ↔ 800 < x + vx + 5) := by
      rw [gt_iff_lt]
      exact_mod_cast Iff.rfl
    have h : ((((x + vx : Int) : ℚ) - 5 < 0 ∨ ((x + vx : Int) : ℚ) + 5 > ((800 : Int) : ℚ))
        ↔ (x + vx < 5 ∨ 800 < x + vx + 5)) := or_congr h1 h2
    by_cases hc : (x + vx < 5 ∨ 800 < x + vx + 5)
    · rw [if_pos (h.mpr hc), decide_eq_true hc]
    · rw [if_neg (mt h.mp hc), decide_eq_false hc]

/-- A frame of one second of `test_model` at whose end the ball would be inside the scene,
above the paddle and clear of every brick: the ball moves by its velocity and nothing else
changes. -/
theorem test_model_free (bricks : List Block) (x y vx vy : Int)
    (hx : 5 ≤ x + vx ∧ x + vx + 5 ≤ 800) (hy : 5 ≤ y + vy ∧ y + vy + 5 < 550)
    (hmiss : ∀ brick ∈ bricks,
      brick.x + brick.width < x + vx - 5 ∨ x + vx + 5 < brick.x ∨
      y + vy + 5 < brick.y ∨ brick.y + brick.height < y + vy - 5) :
    (test_model bricks x y vx vy).on_frame 1 = test_model bricks (x + vx) (y + vy) vx vy := by
  obtain ⟨hblock, htop, hbottom, hside⟩ := test_model_tests bricks x y vx vy
  have hp : ((test_model bricks x y vx vy).ball.next 1).hits_block
      (test_model bricks x y vx vy).paddle = false := by
    rw [hblock]
    show (if low_paddle.x + low_paddle.width < x + vx - 5 ∨ x + vx + 5 < low_paddle.x then false
      else if y + vy + 5 < low_paddle.y ∨ low_paddle.y + low_paddle.height < y + vy - 5
        then false else true) = false
    have hpy : low_paddle.y = 550 := rfl
    split_ifs with h1 h2
    · rfl
    · rfl
    · omega
  have hd : (((test_model bricks x y vx vy).ball.next 1).destroy_brick
      (test_model bricks x y vx vy).bricks).1 = false := by
    cases h : (((test_model bricks x y vx vy).ball.next 1).destroy_brick
      (test_model bricks x y vx vy).bricks).1
    · rfl
    · obtain ⟨brick, hmem, hhit⟩ := (destroy_brick_fst _ _).mp h
      rw [hblock] at hhit
      have hclear := hmiss brick hmem
      split_ifs at hhit with h1 h2
      omega
  have ht : ((test_model bricks x y vx vy).ball.next 1).hits_top
      (test_model bricks x y vx vy).config = false :=
    htop.trans (decide_eq_false (by omega))
  have hb : ((test_model bricks x y vx vy).ball.next 1).hits_bottom
      (test_model bricks x y vx vy).config = false :=
    hbottom.trans (decide_eq_false (by omega))
  have hs : ((test_model bricks x y vx vy).ball.next 1).hits_side
      (test_model bricks x y vx vy).config = false :=
    hside.trans (decide_eq_false (by omega))
  rw [on_frame_free (test_model bricks x y vx vy) 1 rfl hp hd ht hb hs, test_model_next]
  rfl

/-! ## The simulation step: bricks -/

/-- C13, as the step has it. Throughout, the collisions of the frame are those of
`ball.next dt`, the ball as it would be at the end of the frame. For a live ball, in a frame
in which `destroy_brick` destroys a brick: the bricks after the frame are those
`destroy_brick` leaves (one brick less), exactly one value is drawn from the boost source, and
the position advances by the velocity of the end of the frame,
`(new width * dt, new height * dt)`; when the ball hits no side the new width is the old width
plus the drawn value; when the ball hits neither the paddle nor the top or bottom edge the new
height is the negation of the old height; when it hits none of them the ball is the reflected
and boosted ball advanced by `next dt`. In a frame in which no brick, paddle or edge is hit,
the ball is `ball.next dt` and the bricks and the boost source are unchanged. -/
theorem on_frame_brick_hit (m : Model) (dt : ℚ) (hlive : m.ball.live = true) :
    (((m.ball.next dt).destroy_brick m.bricks).1 = true →
      (m.on_frame dt).bricks = ((m.ball.next dt).destroy_brick m.bricks).2 ∧
      (m.on_frame dt).bricks.length + 1 = m.bricks.length ∧
      (m.on_frame dt).random_boost_source = m.random_boost_source.next.2 ∧
      (m.on_frame dt).random_boost_source.drawn = m.random_boost_source.drawn + 1 ∧
      (m.on_frame dt).ball.center =
        ⟨m.ball.center.x + (m.on_frame dt).ball.velocity.width * dt,
          m.ball.center.y + (m.on_frame dt).ball.velocity.height * dt⟩ ∧
      ((m.ball.next dt).hits_side m.config = false →
        (m.on_frame dt).ball.velocity.width
          = m.ball.velocity.width + m.random_boost_source.next.1) ∧
      ((m.ball.next dt).hits_block m.paddle = false →
        (m.ball.next dt).hits_top m.config = false →
        (m.ball.next dt).hits_bottom m.config = false →
        (m.on_frame dt).ball.velocity.height = - m.ball.velocity.height) ∧
      ((m.ball.next dt).hits_block m.paddle = false →
        (m.ball.next dt).hits_top m.config = false →
        (m.ball.next dt).hits_bottom m.config = false →
        (m.ball.next dt).hits_side m.config = false →
        (m.on_frame dt).ball =
          Ball.next
            { m.ball.reflect_vertical with
              velocity := ⟨m.ball.velocity.width + m.random_boost_source.next.1,
                - m.ball.velocity.height⟩ } dt)) ∧
    (((m.ball.next dt).destroy_brick m.bricks).1 = false →
      (m.ball.next dt).hits_block m.paddle = false →
      (m.ball.next dt).hits_top m.config = false →
      (m.ball.next dt).hits_bottom m.config = false →
      (m.ball.next dt).hits_side m.config = false →
      (m.on_frame dt).ball = m.ball.next dt ∧
      (m.on_frame dt).bricks = m.bricks ∧
      (m.on_frame dt).random_boost_source = m.random_boost_source) := by
  obtain ⟨hbricks, hsource, _, _⟩ := on_frame_live_bricks m dt hlive
  constructor
  · intro hd
    refine ⟨hbricks, ?_, ?_, ?_, ?_, ?_, ?_, ?_⟩
    · rw [hbricks]
      exact destroy_brick_true_length _ m.bricks hd
    · rw [hsource, if_pos hd]
    · rw [hsource, if_pos hd]
      rfl
    · obtain ⟨moved, hcenter, hmoved⟩ := on_frame_live_ball m dt hlive
      rw [hmoved, ← hcenter]
      rfl
    · intro hs
      rw [on_frame_live_cases m dt hlive _ _ _ _ rfl hd rfl hs]
      cases (m.ball.next dt).hits_block m.paddle <;>
        cases ((m.ball.next dt).hits_top m.config || (m.ball.next dt).hits_bottom m.config) <;>
        simp [Ball.next, Ball.reflect_vertical]
    · intro hp ht hb
      have he : ((m.ball.next dt).hits_top m.config || (m.ball.next dt).hits_bottom m.config)
          = false := by
        rw [ht, hb]
        rfl
      rw [on_frame_live_cases m dt hlive _ _ _ _ hp hd he rfl]
      cases (m.ball.next dt).hits_side m.config <;>
        simp [Ball.next, Ball.reflect_vertical, Ball.reflect_horizontal]
    · intro hp ht hb hs
      have he : ((m.ball.next dt).hits_top m.config || (m.ball.next dt).hits_bottom m.config)
          = false := by
        rw [ht, hb]
        rfl
      rw [on_frame_live_cases m dt hlive _ _ _ _ hp hd he hs]
      simp [Ball.reflect_vertical]
  · intro hd hp ht hb hs
    rw [on_frame_free m dt hlive hp hd ht hb hs]
    exact ⟨rfl, rfl, rfl⟩

/-- The first three frames of the test "destroy one brick": the ball moves up by 50 in each
and hits nothing. -/
theorem brick_test_frames :
    brick_test.on_frame 1 = test_model [sample_brick] 300 350 0 (-50) ∧
    (brick_test.on_frame 1).on_frame 1 = test_model [sample_brick] 300 300 0 (-50) ∧
    brick_test_3 = test_model [sample_brick] 300 250 0 (-50) := by
  have hmiss : ∀ y : Int, 225 < y → ∀ brick ∈ [sample_brick],
      brick.x + brick.width < 300 + 0 - 5 ∨ 300 + 0 + 5 < brick.x ∨
      y + 5 < brick.y ∨ brick.y + brick.height < y - 5 := by
    intro y hy brick hmem
    rw [List.mem_singleton] at hmem
    subst hmem
    have h1 : sample_brick.y = 200 := rfl
    have h2 : sample_brick.height = 20 := rfl
    omega
  have g1 : brick_test.on_frame 1 = test_model [sample_brick] 300 350 0 (-50) :=
    test_model_free [sample_brick] 300 400 0 (-50) (by decide) (by decide)
      (hmiss _ (by decide))
  have g2 : (test_model [sample_brick] 300 350 0 (-50)).on_frame 1
      = test_model [sample_brick] 300 300 0 (-50) :=
    test_model_free [sample_brick] 300 350 0 (-50) (by decide) (by decide)
      (hmiss _ (by decide))
  have g3 : (test_model [sample_brick] 300 300 0 (-50)).on_frame 1
      = test_model [sample_brick] 300 250 0 (-50) :=
    test_model_free [sample_brick] 300 300 0 (-50) (by decide) (by decide)
      (hmiss _ (by decide))
  refine ⟨g1, ?_, ?_⟩
  · rw [g1, g2]
  · unfold brick_test_3
    rw [g1, g2, g3]

/-- The collision tests of the fourth frame of the test "destroy one brick": at the end of
the frame the ball would be at (300, 200), inside the brick and clear of the paddle and of
the edges. -/
theorem brick_test_3_tests :
    brick_test_3.ball.live = true ∧
    ((brick_test_3.ball.next 1).destroy_brick brick_test_3.bricks).1 = true ∧
    (brick_test_3.ball.next 1).hits_block brick_test_3.paddle = false ∧
    (brick_test_3.ball.next 1).hits_top brick_test_3.config = false ∧
    (brick_test_3.ball.next 1).hits_bottom brick_test_3.config = false ∧
    (brick_test_3.ball.next 1).hits_side brick_test_3.config = false := by
  rw [brick_test_frames.2.2]
  obtain ⟨hblock, htop, hbottom, hside⟩ := test_model_tests [sample_brick] 300 250 0 (-50)
  refine ⟨rfl, ?_, ?_, ?_, ?_, ?_⟩
  · refine (destroy_brick_fst _ _).mpr ⟨sample_brick, by simp [test_model], ?_⟩
    rw [hblock]
    decide
  · rw [hblock]
    decide
  · exact htop.trans (by decide)
  · exact hbottom.trans (by decide)
  · exact hside.trans (by decide)

/-- C13, at a concrete input: the run of the test "destroy one brick" with a ball of radius 5
in a scene of 800 by 600. The ball starts at (300, 400) with velocity (0, -50), there is one
brick (250, 200, 100, 20), `dt = 1` and the boost is stubbed to 14. After each of the frames
1 to 3 the ball is the plain `next` of the ball before and the brick is still there; in frame
4 the brick is destroyed: the velocity becomes (14, 50), the ball is the reflected and boosted
ball advanced by `next 1`, and no brick is left. -/
theorem on_frame_brick_hit_witness :
    ((brick_test.on_frame 1).ball = brick_test.ball.next 1 ∧
      (brick_test.on_frame 1).bricks = [sample_brick]) ∧
    (((brick_test.on_frame 1).on_frame 1).ball = (brick_test.ball.next 1).next 1 ∧
      ((brick_test.on_frame 1).on_frame 1).bricks = [sample_brick]) ∧
    (brick_test_3.ball = brick_expected_3 ∧ brick_test_3.bricks = [sample_brick]) ∧
    (brick_test_3.ball.live = true ∧
      ((brick_test_3.ball.next 1).destroy_brick brick_test_3.bricks).1 = true) ∧
    (brick_test_3.on_frame 1).ball.velocity = ⟨14, 50⟩ ∧
    (brick_test_3.on_frame 1).ball =
      Ball.next
        { brick_expected_3.reflect_vertical with
          velocity := ⟨brick_expected_3.velocity.width + 14,
            brick_expected_3.reflect_vertical.velocity.height⟩ } 1 ∧
    (brick_test_3.on_frame 1).bricks = [] := by
  obtain ⟨g1, g2, g3⟩ := brick_test_frames
  obtain ⟨hlive, hd, hp, ht, hb, hs⟩ := brick_test_3_tests
  obtain ⟨_, hlen, _, _, _, _, _, hball⟩ := (on_frame_brick_hit brick_test_3 1 hlive).1 hd
  have e1 : (test_model [sample_brick] 300 350 0 (-50)).ball = brick_test.ball.next 1 := by
    unfold brick_test
    rw [test_model_next]
    norm_num [test_model]
  have e2 : (test_model [sample_brick] 300 300 0 (-50)).ball
      = (test_model [sample_brick] 300 350 0 (-50)).ball.next 1 := by
    rw [test_model_next]
    norm_num [test_model]
  have e3 : (test_model [sample_brick] 300 250 0 (-50)).ball
      = (test_model [sample_brick] 300 300 0 (-50)).ball.next 1 := by
    rw [test_model_next]
    norm_num [test_model]
  have hexp : brick_test_3.ball = brick_expected_3 := by
    rw [g3, e3, e2, e1]
    rfl
  refine ⟨⟨?_, ?_⟩, ⟨?_, ?_⟩, ⟨hexp, ?_⟩, ⟨hlive, hd⟩, ?_, ?_, ?_⟩
  · rw [g1, e1]
  · rw [g1]
    rfl
  · rw [g2, e2, e1]
  · rw [g2]
    rfl
  · rw [g3]
    rfl
  · rw [hball hp ht hb hs, g3]
    norm_num [Ball.next, test_model, stub_14, Random_source.next, Random_source.stub_with]
  · rw [hball hp ht hb hs, ← hexp, g3]
    norm_num [Ball.next, Ball.reflect_vertical, test_model, stub_14, Random_source.next,
      Random_source.stub_with]
  · have hzero : (brick_test_3.on_frame 1).bricks.length = 0 := by
      have h1 : brick_test_3.bricks.length = 1 := by
        rw [g3]
        rfl
      omega
    exact List.length_eq_zero.mp hzero

/-- The collision tests of the frame of `top_brick_model`: at the end of the frame the ball
would be at (300, 3), over the brick of the top row and over the top edge. -/
theorem top_brick_model_tests :
    top_brick_model.ball.live = true ∧
    ((top_brick_model.ball.next 1).destroy_brick top_brick_model.bricks).1 = true ∧
    (top_brick_model.ball.next 1).hits_block top_brick_model.paddle = false ∧
    ((top_brick_model.ball.next 1).hits_top top_brick_model.config
      || (top_brick_model.ball.next 1).hits_bottom top_brick_model.config) = true ∧
    (top_brick_model.ball.next 1).hits_side top_brick_model.config = false := by
  obtain ⟨hblock, htop, hbottom, hside⟩ :=
    test_model_tests [⟨250, 0, 100, 20⟩] 300 53 0 (-50)
  refine ⟨rfl, ?_, ?_, ?_, ?_⟩
  · refine (destroy_brick_fst _ _).mpr ⟨⟨250, 0, 100, 20⟩, by simp [top_brick_model, test_model],
      ?_⟩
    exact (hblock _).trans (by decide)
  · exact (hblock _).trans (by decide)
  · have h1 : (top_brick_model.ball.next 1).hits_top top_brick_model.config = true :=
      htop.trans (by decide)
    rw [h1]
    rfl
  · exact hside.trans (by decide)

/-- C13, counterexample: a live ball of radius 5 at (300, 53) with velocity (0, -50), a brick
(250, 0, 100, 20) in the top row of a scene of 800 by 600, `dt = 1`. At the end of the frame
the ball would be at (300, 3), over the brick and over the top edge: `destroy_brick` destroys
the brick, and the step reflects vertically twice, once for the brick and once for the edge.
The height component after the frame is -50, as before it, not its negation. -/
theorem on_frame_brick_hit_counterexample :
    top_brick_model.ball.live = true ∧
    ((top_brick_model.ball.next 1).destroy_brick top_brick_model.bricks).1 = true ∧
    top_brick_model.ball.velocity.height = -50 ∧
    (top_brick_model.on_frame 1).ball.velocity.height = -50 ∧
    (top_brick_model.on_frame 1).ball.velocity.height
      ≠ - top_brick_model.ball.velocity.height := by
  obtain ⟨hlive, hd, hp, he, hs⟩ := top_brick_model_tests
  have hafter : (top_brick_model.on_frame 1).ball.velocity.height = -50 := by
    rw [on_frame_live_cases top_brick_model 1 hlive _ _ _ _ hp hd he hs]
    norm_num [Ball.next, Ball.reflect_vertical, top_brick_model, test_model]
  have hbefore : top_brick_model.ball.velocity.height = -50 := by
    norm_num [top_brick_model, test_model]
  refine ⟨hlive, hd, hbefore, hafter, ?_⟩
  rw [hafter, hbefore]
  norm_num

/-! ## The simulation step: edges -/

/-- C14: throughout, the collisions of the frame are those of `ball.next dt`, the ball as it
would be at the end of the frame. For a live ball, in a frame in which the ball hits neither
the paddle nor a brick: when `hits_top` and `hits_side` both hold, both components of the
velocity are negated in that frame, each once, and the position advances by the negated
components: the ball after the frame is the ball reflected vertically and horizontally,
advanced by `next dt`. When `hits_side` holds and the ball hits neither the top nor the
bottom, only the width component is negated. In both cases the bricks are unchanged. -/
theorem on_frame_edges (m : Model) (dt : ℚ) (hlive : m.ball.live = true)
    (hp : (m.ball.next dt).hits_block m.paddle = false)
    (hd : ((m.ball.next dt).destroy_brick m.bricks).1 = false) :
    ((m.ball.next dt).hits_top m.config = true → (m.ball.next dt).hits_side m.config = true →
      (m.on_frame dt).ball.velocity = ⟨- m.ball.velocity.width, - m.ball.velocity.height⟩ ∧
      (m.on_frame dt).ball.center =
        ⟨m.ball.center.x + (- m.ball.velocity.width) * dt,
          m.ball.center.y + (- m.ball.velocity.height) * dt⟩ ∧
      (m.on_frame dt).ball = (m.ball.reflect_vertical.reflect_horizontal).next dt ∧
      (m.on_frame dt).bricks = m.bricks) ∧
    ((m.ball.next dt).hits_top m.config = false →
      (m.ball.next dt).hits_bottom m.config = false →
      (m.ball.next dt).hits_side m.config = true →
      (m.on_frame dt).ball.velocity = ⟨- m.ball.velocity.width, m.ball.velocity.height⟩ ∧
      (m.on_frame dt).ball.center =
        ⟨m.ball.center.x + (- m.ball.velocity.width) * dt,
          m.ball.center.y + m.ball.velocity.height * dt⟩ ∧
      (m.on_frame dt).ball = m.ball.reflect_horizontal.next dt ∧
      (m.on_frame dt).bricks = m.bricks) := by
  have hbricks : (m.on_frame dt).bricks = m.bricks := by
    rw [(on_frame_live_bricks m dt hlive).1]
    exact destroy_brick_false _ m.bricks hd
  constructor
  · intro ht hs
    have he : ((m.ball.next dt).hits_top m.config || (m.ball.next dt).hits_bottom m.config)
        = true := by
      rw [ht]
      rfl
    rw [on_frame_live_cases m dt hlive _ _ _ _ hp hd he hs]
    refine ⟨?_, ?_, ?_, hbricks⟩
    · simp [Ball.next, Ball.reflect_vertical, Ball.reflect_horizontal]
    · simp [Ball.next, Ball.reflect_vertical, Ball.reflect_horizontal, Posn.down_by,
        Posn.right_by]
    · simp
  · intro ht hb hs
    have he : ((m.ball.next dt).hits_top m.config || (m.ball.next dt).hits_bottom m.config)
        = false := by
      rw [ht, hb]
      rfl
    rw [on_frame_live_cases m dt hlive _ _ _ _ hp hd he hs]
    refine ⟨?_, ?_, ?_, hbricks⟩
    · simp [Ball.next, Ball.reflect_horizontal]
    · simp [Ball.next, Ball.reflect_horizontal, Posn.down_by, Posn.right_by]
    · simp

/-- The first five frames of the tests "Off side and top" (`vy = -50`) and "Off top"
(`vy = 0`): from (300, 300) with velocity `(-50, vy)` the ball hits nothing, and after `k`
frames of one second it is at `(300 - 50 k, 300 + vy k)`. -/
theorem edge_test_frames (vy : Int) (hvy : vy = -50 ∨ vy = 0) :
    ∀ k : Nat, k ≤ 5 →
      (fun m : Model => m.on_frame 1)^[k] (test_model [] 300 300 (-50) vy)
        = test_model [] (300 - 50 * (k : Int)) (300 + vy * (k : Int)) (-50) vy
  | 0, _ => by
    simp
  | k + 1, hk => by
    rw [Function.iterate_succ_apply', edge_test_frames vy hvy k (by omega)]
    have hfree := test_model_free [] (300 - 50 * (k : Int)) (300 + vy * (k : Int)) (-50) vy
      (by omega) (by rcases hvy with rfl | rfl <;> omega) (by simp)
    have ex : 300 - 50 * (k : Int) + -50 = 300 - 50 * ((k + 1 : Nat) : Int) := by
      push_cast
      ring
    have ey : 300 + vy * (k : Int) + vy = 300 + vy * ((k + 1 : Nat) : Int) := by
      push_cast
      ring
    rw [hfree, ex, ey]

/-- The ball that the tests "Off side and top" and "Off top" expect after `k` frames: `k`
times `next 1` of the ball at (300, 300) with velocity `(-50, vy)`. -/
theorem edge_test_expected (vy : Int) :
    ∀ k : Nat,
      (fun b : Ball => b.next 1)^[k] (test_model [] 300 300 (-50) vy).ball
        = (test_model [] (300 - 50 * (k : Int)) (300 + vy * (k : Int)) (-50) vy).ball
  | 0 => by
    simp
  | k + 1 => by
    have ex : 300 - 50 * (k : Int) + -50 = 300 - 50 * ((k + 1 : Nat) : Int) := by
      push_cast
      ring
    have ey : 300 + vy * (k : Int) + vy = 300 + vy * ((k + 1 : Nat) : Int) := by
      push_cast
      ring
    rw [Function.iterate_succ_apply', edge_test_expected vy k, test_model_next, ex, ey]
    rfl

/-- C14, at a concrete input: the runs of the tests "Off side and top" and "Off top" with a
ball of radius 5 in a scene of 800 by 600, without bricks, `dt = 1`. From (300, 300) with
velocity (-50, -50) the ball follows plain `next` for 5 frames; in frame 6, at whose end it
would be at (0, 0), over the top and the left edge, both components are negated: the velocity
becomes (50, 50) and the ball is the ball with both components negated advanced by `next 1`.
With velocity (-50, 0) the ball follows plain `next` for 5 frames, and in frame 6 only the
width is negated: the velocity becomes (50, 0). -/
theorem on_frame_edges_witness :
    (∀ k : Nat, k ≤ 5 →
      ((fun m : Model => m.on_frame 1)^[k] corner_test).ball
        = (fun b : Ball => b.next 1)^[k] corner_test.ball) ∧
    corner_test_5.ball = corner_expected_5 ∧
    (corner_test_5.ball.live = true ∧
      (corner_test_5.ball.next 1).hits_block corner_test_5.paddle = false ∧
      ((corner_test_5.ball.next 1).destroy_brick corner_test_5.bricks).1 = false ∧
      (corner_test_5.ball.next 1).hits_top corner_test_5.config = true ∧
      (corner_test_5.ball.next 1).hits_side corner_test_5.config = true) ∧
    (corner_test_5.on_frame 1).ball.velocity = ⟨50, 50⟩ ∧
    (corner_test_5.on_frame 1).ball
      = (corner_expected_5.reflect_vertical.reflect_horizontal).next 1 ∧
    (∀ k : Nat, k ≤ 5 →
      ((fun m : Model => m.on_frame 1)^[k] side_test).ball
        = (fun b : Ball => b.next 1)^[k] side_test.ball) ∧
    side_test_5.ball = side_expected_5 ∧
    (side_test_5.ball.live = true ∧
      (side_test_5.ball.next 1).hits_block side_test_5.paddle = false ∧
      ((side_test_5.ball.next 1).destroy_brick side_test_5.bricks).1 = false ∧
      (side_test_5.ball.next 1).hits_top side_test_5.config = false ∧
      (side_test_5.ball.next 1).hits_bottom side_test_5.config = false ∧
      (side_test_5.ball.next 1).hits_side side_test_5.config = true) ∧
    (side_test_5.on_frame 1).ball.velocity = ⟨50, 0⟩ ∧
    (side_test_5.on_frame 1).ball = side_expected_5.reflect_horizontal.next 1 := by
  have hc5 : corner_test_5 = test_model [] 50 50 (-50) (-50) :=
    edge_test_frames (-50) (Or.inl rfl) 5 (le_refl 5)
  have hs5 : side_test_5 = test_model [] 50 300 (-50) 0 :=
    edge_test_frames 0 (Or.inr rfl) 5 (le_refl 5)
  have hce : corner_test_5.ball = corner_expected_5 := by
    rw [hc5]
    exact (edge_test_expected (-50) 5).symm
  have hse : side_test_5.ball = side_expected_5 := by
    rw [hs5]
    exact (edge_test_expected 0 5).symm
  obtain ⟨cblock, ctop, _, cside⟩ := test_model_tests [] 50 50 (-50) (-50)
  obtain ⟨sblock, stop, sbottom, sside⟩ := test_model_tests [] 50 300 (-50) 0
  have c1 : corner_test_5.ball.live = true := by rw [hc5]; rfl
  have c2 : (corner_test_5.ball.next 1).hits_block corner_test_5.paddle = false := by
    rw [hc5]
    exact (cblock _).trans (by decide)
  have c3 : ((corner_test_5.ball.next 1).destroy_brick corner_test_5.bricks).1 = false := by
    rw [hc5]
    rfl
  have c4 : (corner_test_5.ball.next 1).hits_top corner_test_5.config = true := by
    rw [hc5]
    exact ctop.trans (by decide)
  have c5 : (corner_test_5.ball.next 1).hits_side corner_test_5.config = true := by
    rw [hc5]
    exact cside.trans (by decide)
  have s1 : side_test_5.ball.live = true := by rw [hs5]; rfl
  have s2 : (side_test_5.ball.next 1).hits_block side_test_5.paddle = false := by
    rw [hs5]
    exact (sblock _).trans (by decide)
  have s3 : ((side_test_5.ball.next 1).destroy_brick side_test_5.bricks).1 = false := by
    rw [hs5]
    rfl
  have s4 : (side_test_5.ball.next 1).hits_top side_test_5.config = false := by
    rw [hs5]
    exact stop.trans (by decide)
  have s5 : (side_test_5.ball.next 1).hits_bottom side_test_5.config = false := by
    rw [hs5]
    exact sbottom.trans (by decide)
  have s6 : (side_test_5.ball.next 1).hits_side side_test_5.config = true := by
    rw [hs5]
    exact sside.trans (by decide)
  obtain ⟨cv, _, cb, _⟩ := (on_frame_edges corner_test_5 1 c1 c2 c3).1 c4 c5
  obtain ⟨sv, _, sb, _⟩ := (on_frame_edges side_test_5 1 s1 s2 s3).2 s4 s5 s6
  refine ⟨?_, hce, ⟨c1, c2, c3, c4, c5⟩, ?_, ?_, ?_, hse, ⟨s1, s2, s3, s4, s5, s6⟩, ?_, ?_⟩
  · intro k hk
    exact (congrArg Model.ball (edge_test_frames (-50) (Or.inl rfl) k hk)).trans
      (edge_test_expected (-50) k).symm
  · rw [cv, hc5]
    norm_num [test_model]
  · rw [cb, hce]
  · intro k hk
    exact (congrArg Model.ball (edge_test_frames 0 (Or.inr rfl) k hk)).trans
      (edge_test_expected 0 k).symm
  · rw [sv, hs5]
    norm_num [test_model]
  · rw [sb, hse]

/-! ## The paddle and the resting ball -/

/-- A call of `paddle_to` changes neither the live flag of the ball, nor the configuration,
nor the vertical position and the size of the paddle. -/
theorem paddle_to_frame (m : Model) (x : Int) :
    (m.paddle_to x).ball.live = m.ball.live ∧
    (m.paddle_to x).config = m.config ∧
    (m.paddle_to x).paddle = { m.paddle with x := x } := by
  unfold Model.paddle_to
  split_ifs <;> exact ⟨rfl, rfl, rfl⟩

/-- A sequence of calls of `paddle_to` changes neither the live flag of the ball, nor the
configuration, nor the vertical position and the size of the paddle. -/
theorem foldl_paddle_to_frame :
    ∀ (xs : List Int) (m : Model),
      (xs.foldl Model.paddle_to m).ball.live = m.ball.live ∧
      (xs.foldl Model.paddle_to m).config = m.config ∧
      (xs.foldl Model.paddle_to m).paddle.y = m.paddle.y ∧
      (xs.foldl Model.paddle_to m).paddle.width = m.paddle.width
  | [], _ => ⟨rfl, rfl, rfl, rfl⟩
  | x :: xs, m => by
    obtain ⟨h1, h2, h3, h4⟩ := foldl_paddle_to_frame xs (m.paddle_to x)
    obtain ⟨g1, g2, g3⟩ := paddle_to_frame m x
    rw [List.foldl_cons, h1, h2, h3, h4, g1, g2, g3]
    exact ⟨rfl, rfl, rfl, rfl⟩

/-- The center of a resting ball after a call of `paddle_to`. -/
theorem paddle_to_center (m : Model) (x : Int) (hlive : m.ball.live = false) :
    (m.paddle_to x).ball.center =
      ⟨((x + Int.tdiv m.paddle.width 2 : Int) : ℚ),
        ((m.paddle.y - (1 + m.config.ball_radius) : Int) : ℚ)⟩ := by
  unfold Model.paddle_to
  simp only [hlive, Bool.false_eq_true, if_false]
  rfl

/-- C15: while the ball is not live, after any sequence of earlier calls of `paddle_to`, a
call `paddle_to x` puts the center of the ball at `x + paddle.width / 2` horizontally (the
division of integers; the exact half when the width is even) and at
`paddle.y - (ball_radius + 1)` vertically. The center is the one that the single call
`paddle_to x` gives: it depends on the last `x` only, and its y coordinate is the same after
every call. -/
theorem paddle_to_tracks (m : Model) (xs : List Int) (x : Int) (hlive : m.ball.live = false) :
    ((xs.foldl Model.paddle_to m).paddle_to x).ball.center.x
      = ((x + Int.tdiv m.paddle.width 2 : Int) : ℚ) ∧
    (2 ∣ m.paddle.width →
      ((xs.foldl Model.paddle_to m).paddle_to x).ball.center.x
        = (x : ℚ) + (m.paddle.width : ℚ) / 2) ∧
    ((xs.foldl Model.paddle_to m).paddle_to x).ball.center.y
      = (m.paddle.y : ℚ) - ((m.config.ball_radius : ℚ) + 1) ∧
    ((xs.foldl Model.paddle_to m).paddle_to x).ball.center = (m.paddle_to x).ball.center ∧
    (∀ other : Int,
      ((xs.foldl Model.paddle_to m).paddle_to x).ball.center.y
        = (m.paddle_to other).ball.center.y) ∧
    (m.ball.center = above_block m.paddle m.config →
      ((xs.foldl Model.paddle_to m).paddle_to x).ball.center.y = m.ball.center.y) := by
  obtain ⟨h1, h2, h3, h4⟩ := foldl_paddle_to_frame xs m
  have hc := paddle_to_center (xs.foldl Model.paddle_to m) x (by rw [h1]; exact hlive)
  rw [h2, h3, h4] at hc
  have hx : ((xs.foldl Model.paddle_to m).paddle_to x).ball.center.x
      = ((x + Int.tdiv m.paddle.width 2 : Int) : ℚ) := by rw [hc]
  have hy : ((xs.foldl Model.paddle_to m).paddle_to x).ball.center.y
      = ((m.paddle.y - (1 + m.config.ball_radius) : Int) : ℚ) := by rw [hc]
  refine ⟨hx, ?_, ?_, ?_, ?_, ?_⟩
  · rintro ⟨k, hk⟩
    have hdiv : Int.tdiv m.paddle.width 2 = k := by
      rw [hk]
      exact Int.mul_tdiv_cancel_left k (by decide)
    rw [hx, hdiv, hk]
    push_cast
    ring
  · rw [hy]
    push_cast
    ring
  · rw [hc, paddle_to_center m x hlive]
  · intro other
    rw [hy, paddle_to_center m other hlive]
  · intro hrest
    rw [hy, hrest]
    rfl

/-- C15, at a concrete input: the run of the test "Paddle Moves with Ball". The ball rests on
a paddle of width 100; `paddle_to 100`, then `paddle_to 50`, then `paddle_to 500` put the
center of the ball at x = 150, 100 and 550. -/
theorem paddle_to_tracks_witness :
    resting_model.ball.live = false ∧
    (resting_model.paddle_to 100).ball.center.x = 150 ∧
    ((resting_model.paddle_to 100).paddle_to 50).ball.center.x = 100 ∧
    (((resting_model.paddle_to 100).paddle_to 50).paddle_to 500).ball.center.x = 550 ∧
    (((resting_model.paddle_to 100).paddle_to 50).paddle_to 500).ball.center.y
      = resting_model.ball.center.y := by
  have hlive : resting_model.ball.live = false := rfl
  have hdiv : Int.tdiv resting_model.paddle.width 2 = 50 := by decide
  have h1 := (paddle_to_tracks resting_model [] 100 hlive).1
  have h2 := (paddle_to_tracks resting_model [100] 50 hlive).1
  have h3 := (paddle_to_tracks resting_model [100, 50] 500 hlive).1
  have h4 := (paddle_to_tracks resting_model [100, 50] 500 hlive).2.2.2.2.2 rfl
  rw [hdiv] at h1 h2 h3
  simp only [List.foldl_cons, List.foldl_nil] at h1 h2 h3 h4
  refine ⟨hlive, ?_, ?_, ?_, h4⟩
  · rw [h1]
    norm_num
  · rw [h2]
    norm_num
  · rw [h3]
    norm_num

/-! ## Motion in floating point -/

/-- The exponent of a value between two consecutive powers of two. -/
theorem log_two_eq {q : ℚ} {k : Int} (hlow : (2 : ℚ) ^ k ≤ |q|)
    (hhigh : |q| < (2 : ℚ) ^ (k + 1)) : Int.log 2 |q| = k := by
  have hpos : (0 : ℚ) < |q| := lt_of_lt_of_le (zpow_pos (by norm_num) k) hlow
  have h1 : k ≤ Int.log 2 |q| :=
    (Int.zpow_le_iff_le_log (by norm_num) hpos).mp (by exact_mod_cast hlow)
  have h2 : Int.log 2 |q| < k + 1 :=
    (Int.lt_zpow_iff_log_lt (by norm_num) hpos).mp (by exact_mod_cast hhigh)
  omega

/-- The rounding of a value between `2 ^ k` and `2 ^ (k + 1)` in absolute value, strictly
nearer to the multiple `n` of the last bit than to any other. -/
theorem round_to_precision_eq (p : Nat) (q : ℚ) (k n : Int)
    (hlow : (2 : ℚ) ^ k ≤ |q|) (hhigh : |q| < (2 : ℚ) ^ (k + 1))
    (hnear : |q / (2 : ℚ) ^ (k - ((p : Int) - 1)) - (n : ℚ)| < 1 / 2) :
    round_to_precision p q = (n : ℚ) * (2 : ℚ) ^ (k - ((p : Int) - 1)) := by
  have hpos : (0 : ℚ) < |q| := lt_of_lt_of_le (zpow_pos (by norm_num) k) hlow
  have hq : q ≠ 0 := abs_pos.mp hpos
  unfold round_to_precision
  rw [if_neg hq, log_two_eq hlow hhigh]
  simp only
  obtain ⟨h1, h2⟩ := abs_lt.mp hnear
  by_cases hge : (n : ℚ) ≤ q / (2 : ℚ) ^ (k - ((p : Int) - 1))
  · have hfloor : ⌊q / (2 : ℚ) ^ (k - ((p : Int) - 1))⌋ = n :=
      Int.floor_eq_iff.mpr ⟨hge, by linarith⟩
    rw [hfloor, if_pos (by linarith)]
  · have hlt := not_le.mp hge
    have hfloor : ⌊q / (2 : ℚ) ^ (k - ((p : Int) - 1))⌋ = n - 1 :=
      Int.floor_eq_iff.mpr ⟨by push_cast; linarith, by push_cast; linarith⟩
    rw [hfloor, if_neg (by push_cast; linarith), if_pos (by push_cast; linarith)]
    simp

/-- The nearest `float` of a value, from its exponent `k` and the nearest significand `n`. -/
theorem to_float_eq (q r : ℚ) (k n : Int)
    (hlow : (2 : ℚ) ^ k ≤ q ∨ (2 : ℚ) ^ k ≤ -q)
    (hhigh : -(2 : ℚ) ^ (k + 1) < q ∧ q < (2 : ℚ) ^ (k + 1))
    (hnear : -(1 / 2) < q / (2 : ℚ) ^ (k - 23) - (n : ℚ) ∧
      q / (2 : ℚ) ^ (k - 23) - (n : ℚ) < 1 / 2)
    (hr : r = (n : ℚ) * (2 : ℚ) ^ (k - 23)) : to_float q = r := by
  rw [hr]
  exact round_to_precision_eq 24 q k n (le_abs.mpr hlow) (abs_lt.mpr hhigh) (abs_lt.mpr hnear)

/-- The nearest `double` of a value, from its exponent `k` and the nearest significand
`n`. -/
theorem to_double_eq (q r : ℚ) (k n : Int)
    (hlow : (2 : ℚ) ^ k ≤ q ∨ (2 : ℚ) ^ k ≤ -q)
    (hhigh : -(2 : ℚ) ^ (k + 1) < q ∧ q < (2 : ℚ) ^ (k + 1))
    (hnear : -(1 / 2) < q / (2 : ℚ) ^ (k - 52) - (n : ℚ) ∧
      q / (2 : ℚ) ^ (k - 52) - (n : ℚ) < 1 / 2)
    (hr : r = (n : ℚ) * (2 : ℚ) ^ (k - 52)) : to_double q = r := by
  rw [hr]
  exact round_to_precision_eq 53 q k n (le_abs.mpr hlow) (abs_lt.mpr hhigh) (abs_lt.mpr hnear)

/-- A value with exponent `k` that is a multiple of the last bit of a `float` is a `float`. -/
theorem to_float_exact (q : ℚ) (k n : Int)
    (hlow : (2 : ℚ) ^ k ≤ q ∨ (2 : ℚ) ^ k ≤ -q)
    (hhigh : -(2 : ℚ) ^ (k + 1) < q ∧ q < (2 : ℚ) ^ (k + 1))
    (hq : q = (n : ℚ) * (2 : ℚ) ^ (k - 23)) : to_float q = q := by
  have hpow : (0 : ℚ) < (2 : ℚ) ^ (k - 23) := zpow_pos (by norm_num) _
  have hscaled : q / (2 : ℚ) ^ (k - 23) - (n : ℚ) = 0 := by
    rw [hq, mul_div_assoc, div_self (ne_of_gt hpow), mul_one, sub_self]
  exact to_float_eq q q k n hlow hhigh (by rw [hscaled]; norm_num) hq

/-- A value with exponent `k` that is a multiple of the last bit of a `double` is a
`double`. -/
theorem to_double_exact (q : ℚ) (k n : Int)
    (hlow : (2 : ℚ) ^ k ≤ q ∨ (2 : ℚ) ^ k ≤ -q)
    (hhigh : -(2 : ℚ) ^ (k + 1) < q ∧ q < (2 : ℚ) ^ (k + 1))
    (hq : q = (n : ℚ) * (2 : ℚ) ^ (k - 52)) : to_double q = q := by
  have hpow : (0 : ℚ) < (2 : ℚ) ^ (k - 52) := zpow_pos (by norm_num) _
  have hscaled : q / (2 : ℚ) ^ (k - 52) - (n : ℚ) = 0 := by
    rw [hq, mul_div_assoc, div_self (ne_of_gt hpow), mul_one, sub_self]
  exact to_double_eq q q k n hlow hhigh (by rw [hscaled]; norm_num) hq

/-- The ball after `next_float`, from the results of its six roundings. -/
theorem next_float_of_roundings (b : Ball) (dt dy fy y dx fx x : ℚ)
    (h1 : to_double (b.velocity.height * dt) = dy) (h2 : to_float dy = fy)
    (h3 : to_float (b.center.y + fy) = y)
    (h4 : to_double (b.velocity.width * dt) = dx) (h5 : to_float dx = fx)
    (h6 : to_float (b.center.x + fx) = x) :
    b.next_float dt = ⟨b.radius, ⟨x, y⟩, b.velocity, b.live⟩ := by
  simp only [Ball.next_float, h1, h2, h3, h4, h5, h6]

/-- When no operation rounds, `next_float` is `next`. -/
theorem next_float_eq_next (b : Ball) (dt : ℚ) (h : b.next_is_exact dt) :
    b.next_float dt = b.next dt := by
  obtain ⟨⟨h1, h2, h3⟩, ⟨h4, h5, h6⟩⟩ := h
  rw [next_float_of_roundings b dt _ _ _ _ _ _ h1 h2 h3 h4 h5 h6]
  rfl

/-- C6, as the code has it: sub-steps accumulate when no operation of the steps rounds. For
every ball `b` and all `dt1`, `dt2` such that the steps `dt1` then `dt2`, the steps `dt2`
then `dt1`, the sum `dt1 + dt2` and the single step `dt1 + dt2` are computed without
rounding, the center of `b.next(dt1).next(dt2)` is `center + velocity * (dt1 + dt2)`, and
`b.next(dt1).next(dt2)`, `b.next(dt2).next(dt1)` and `b.next(dt1 + dt2)` are equal under
`operator==`. -/
theorem next_float_accumulates (b : Ball) (dt1 dt2 : ℚ)
    (h1 : b.next_is_exact dt1) (h12 : (b.next_float dt1).next_is_exact dt2)
    (h2 : b.next_is_exact dt2) (h21 : (b.next_float dt2).next_is_exact dt1)
    (hsum : to_double (dt1 + dt2) = dt1 + dt2) (h3 : b.next_is_exact (dt1 + dt2)) :
    ((b.next_float dt1).next_float dt2).center
      = ⟨b.center.x + b.velocity.width * (dt1 + dt2),
          b.center.y + b.velocity.height * (dt1 + dt2)⟩ ∧
    Ball.op_eq ((b.next_float dt1).next_float dt2) ((b.next_float dt2).next_float dt1)
      = true ∧
    Ball.op_eq ((b.next_float dt2).next_float dt1) (b.next_float (to_double (dt1 + dt2)))
      = true ∧
    Ball.op_eq ((b.next_float dt1).next_float dt2) (b.next_float (to_double (dt1 + dt2)))
      = true := by
  have e12 : (b.next_float dt1).next_float dt2 = (b.next dt1).next dt2 := by
    rw [next_float_eq_next _ _ h12, next_float_eq_next _ _ h1]
  have e21 : (b.next_float dt2).next_float dt1 = (b.next dt2).next dt1 := by
    rw [next_float_eq_next _ _ h21, next_float_eq_next _ _ h2]
  have e3 : b.next_float (to_double (dt1 + dt2)) = b.next (dt1 + dt2) := by
    rw [hsum, next_float_eq_next _ _ h3]
  rw [e12, e21, e3]
  exact next_next_accumulates b dt1 dt2

/-- C6, at a concrete input: the velocity (8, -24) and the steps 0.5 and 0.25 of the test
"ball moving freely", from the center (300, 400): every product and every sum is a small
integer, nothing rounds, and the sub-steps accumulate. -/
theorem next_float_accumulates_witness :
    (free_ball.next_is_exact (1 / 2) ∧
      (free_ball.next_float (1 / 2)).next_is_exact (1 / 4) ∧
      free_ball.next_is_exact (1 / 4) ∧
      (free_ball.next_float (1 / 4)).next_is_exact (1 / 2) ∧
      to_double ((1 / 2 : ℚ) + 1 / 4) = 1 / 2 + 1 / 4 ∧
      free_ball.next_is_exact (1 / 2 + 1 / 4)) ∧
    ((free_ball.next_float (1 / 2)).next_float (1 / 4)).center = ⟨306, 382⟩ ∧
    Ball.op_eq ((free_ball.next_float (1 / 2)).next_float (1 / 4))
      ((free_ball.next_float (1 / 4)).next_float (1 / 2)) = true ∧
    Ball.op_eq ((free_ball.next_float (1 / 2)).next_float (1 / 4))
      (free_ball.next_float (to_double (1 / 2 + 1 / 4))) = true := by
  have h1 : Ball.next_is_exact (free_ball) (1 / 2) := by
    refine ⟨⟨?_, ?_, ?_⟩, ⟨?_, ?_, ?_⟩⟩
    · exact to_double_exact _ 3 (-6755399441055744)
        (by norm_num [free_ball, Ball.next, Posn.down_by, Posn.right_by])
        (by norm_num [free_ball, Ball.next, Posn.down_by, Posn.right_by])
        (by norm_num [free_ball, Ball.next, Posn.down_by, Posn.right_by])
    · exact to_float_exact _ 3 (-12582912)
        (by norm_num [free_ball, Ball.next, Posn.down_by, Posn.right_by])
        (by norm_num [free_ball, Ball.next, Posn.down_by, Posn.right_by])
        (by norm_num [free_ball, Ball.next, Posn.down_by, Posn.right_by])
    · exact to_float_exact _ 8 12713984
        (by norm_num [free_ball, Ball.next, Posn.down_by, Posn.right_by])
        (by norm_num [free_ball, Ball.next, Posn.down_by, Posn.right_by])
        (by norm_num [free_ball, Ball.next, Posn.down_by, Posn.right_by])
    · exact to_double_exact _ 2 4503599627370496
        (by norm_num [free_ball, Ball.next, Posn.down_by, Posn.right_by])
        (by norm_num [free_ball, Ball.next, Posn.down_by, Posn.right_by])
        (by norm_num [free_ball, Ball.next, Posn.down_by, Posn.right_by])
    · exact to_float_exact _ 2 8388608
        (by norm_num [free_ball, Ball.next, Posn.down_by, Posn.right_by])
        (by norm_num [free_ball, Ball.next, Posn.down_by, Posn.right_by])
        (by norm_num [free_ball, Ball.next, Posn.down_by, Posn.right_by])
    · exact to_float_exact _ 8 9961472
        (by norm_num [free_ball, Ball.next, Posn.down_by, Posn.right_by])
        (by norm_num [free_ball, Ball.next, Posn.down_by, Posn.right_by])
        (by norm_num [free_ball, Ball.next, Posn.down_by, Posn.right_by])
  have e1 : free_ball.next_float (1 / 2) = free_ball.next (1 / 2) :=
    next_float_eq_next _ _ h1
  have h12 : Ball.next_is_exact (free_ball.next_float (1 / 2)) (1 / 4) := by
    rw [e1]
    refine ⟨⟨?_, ?_, ?_⟩, ⟨?_, ?_, ?_⟩⟩
    · exact to_double_exact _ 2 (-6755399441055744)
        (by norm_num [free_ball, Ball.next, Posn.down_by, Posn.right_by])
        (by norm_num [free_ball, Ball.next, Posn.down_by, Posn.right_by])
        (by norm_num [free_ball, Ball.next, Posn.down_by, Posn.right_by])
    · exact to_float_exact _ 2 (-12582912)
        (by norm_num [free_ball, Ball.next, Posn.down_by, Posn.right_by])
        (by norm_num [free_ball, Ball.next, Posn.down_by, Posn.right_by])
        (by norm_num [free_ball, Ball.next, Posn.down_by, Posn.right_by])
    · exact to_float_exact _ 8 12517376
        (by norm_num [free_ball, Ball.next, Posn.down_by, Posn.right_by])
        (by norm_num [free_ball, Ball.next, Posn.down_by, Posn.right_by])
        (by norm_num [free_ball, Ball.next, Posn.down_by, Posn.right_by])
    · exact to_double_exact _ 1 4503599627370496
        (by norm_num [free_ball, Ball.next, Posn.down_by, Posn.right_by])
        (by norm_num [free_ball, Ball.next, Posn.down_by, Posn.right_by])
        (by norm_num [free_ball, Ball.next, Posn.down_by, Posn.right_by])
    · exact to_float_exact _ 1 8388608
        (by norm_num [free_ball, Ball.next, Posn.down_by, Posn.right_by])
        (by norm_num [free_ball, Ball.next, Posn.down_by, Posn.right_by])
        (by norm_num [free_ball, Ball.next, Posn.down_by, Posn.right_by])
    · exact to_float_exact _ 8 10027008
        (by norm_num [free_ball, Ball.next, Posn.down_by, Posn.right_by])
        (by norm_num [free_ball, Ball.next, Posn.down_by, Posn.right_by])
        (by norm_num [free_ball, Ball.next, Posn.down_by, Posn.right_by])
  have h2 : Ball.next_is_exact (free_ball) (1 / 4) := by
    refine ⟨⟨?_, ?_, ?_⟩, ⟨?_, ?_, ?_⟩⟩
    · exact to_double_exact _ 2 (-6755399441055744)
        (by norm_num [free_ball, Ball.next, Posn.down_by, Posn.right_by])
        (by norm_num [free_ball, Ball.next, Posn.down_by, Posn.right_by])
        (by norm_num [free_ball, Ball.next, Posn.down_by, Posn.right_by])
    · exact to_float_exact _ 2 (-12582912)
        (by norm_num [free_ball, Ball.next, Posn.down_by, Posn.right_by])
        (by norm_num [free_ball, Ball.next, Posn.down_by, Posn.right_by])
        (by norm_num [free_ball, Ball.next, Posn.down_by, Posn.right_by])
    · exact to_float_exact _ 8 12910592
        (by norm_num [free_ball, Ball.next, Posn.down_by, Posn.right_by])
        (by norm_num [free_ball, Ball.next, Posn.down_by, Posn.right_by])
        (by norm_num [free_ball, Ball.next, Posn.down_by, Posn.right_by])
    · exact to_double_exact _ 1 4503599627370496
        (by norm_num [free_ball, Ball.next, Posn.down_by, Posn.right_by])
        (by norm_num [free_ball, Ball.next, Posn.down_by, Posn.right_by])
        (by norm_num [free_ball, Ball.next, Posn.down_by, Posn.right_by])
    · exact to_float_exact _ 1 8388608
        (by norm_num [free_ball, Ball.next, Posn.down_by, Posn.right_by])
        (by norm_num [free_ball, Ball.next, Posn.down_by, Posn.right_by])
        (by norm_num [free_ball, Ball.next, Posn.down_by, Posn.right_by])
    · exact to_float_exact _ 8 9895936
        (by norm_num [free_ball, Ball.next, Posn.down_by, Posn.right_by])
        (by norm_num [free_ball, Ball.next, Posn.down_by, Posn.right_by])
        (by norm_num [free_ball, Ball.next, Posn.down_by, Posn.right_by])
  have e2 : free_ball.next_float (1 / 4) = free_ball.next (1 / 4) :=
    next_float_eq_next _ _ h2
  have h21 : Ball.next_is_exact (free_ball.next_float (1 / 4)) (1 / 2) := by
    rw [e2]
    refine ⟨⟨?_, ?_, ?_⟩, ⟨?_, ?_, ?_⟩⟩
    · exact to_double_exact _ 3 (-6755399441055744)
        (by norm_num [free_ball, Ball.next, Posn.down_by, Posn.right_by])
        (by norm_num [free_ball, Ball.next, Posn.down_by, Posn.right_by])
        (by norm_num [free_ball, Ball.next, Posn.down_by, Posn.right_by])
    · exact to_float_exact _ 3 (-12582912)
        (by norm_num [free_ball, Ball.next, Posn.down_by, Posn.right_by])
        (by norm_num [free_ball, Ball.next, Posn.down_by, Posn.right_by])
        (by norm_num [free_ball, Ball.next, Posn.down_by, Posn.right_by])
    · exact to_float_exact _ 8 12517376
        (by norm_num [free_ball, Ball.next, Posn.down_by, Posn.right_by])
        (by norm_num [free_ball, Ball.next, Posn.down_by, Posn.right_by])
        (by norm_num [free_ball, Ball.next, Posn.down_by, Posn.right_by])
    · exact to_double_exact _ 2 4503599627370496
        (by norm_num [free_ball, Ball.next, Posn.down_by, Posn.right_by])
        (by norm_num [free_ball, Ball.next, Posn.down_by, Posn.right_by])
        (by norm_num [free_ball, Ball.next, Posn.down_by, Posn.right_by])
    · exact to_float_exact _ 2 8388608
        (by norm_num [free_ball, Ball.next, Posn.down_by, Posn.right_by])
        (by norm_num [free_ball, Ball.next, Posn.down_by, Posn.right_by])
        (by norm_num [free_ball, Ball.next, Posn.down_by, Posn.right_by])
    · exact to_float_exact _ 8 10027008
        (by norm_num [free_ball, Ball.next, Posn.down_by, Posn.right_by])
        (by norm_num [free_ball, Ball.next, Posn.down_by, Posn.right_by])
        (by norm_num [free_ball, Ball.next, Posn.down_by, Posn.right_by])
  have hsum : to_double ((1 / 2 : ℚ) + 1 / 4) = 1 / 2 + 1 / 4 :=
    to_double_exact _ (-1) 6755399441055744 (by norm_num) (by norm_num) (by norm_num)
  have h3 : Ball.next_is_exact (free_ball) (1 / 2 + 1 / 4) := by
    refine ⟨⟨?_, ?_, ?_⟩, ⟨?_, ?_, ?_⟩⟩
    · exact to_double_exact _ 4 (-5066549580791808)
        (by norm_num [free_ball, Ball.next, Posn.down_by, Posn.right_by])
        (by norm_num [free_ball, Ball.next, Posn.down_by, Posn.right_by])
        (by norm_num [free_ball, Ball.next, Posn.down_by, Posn.right_by])
    · exact to_float_exact _ 4 (-9437184)
        (by norm_num [free_ball, Ball.next, Posn.down_by, Posn.right_by])
        (by norm_num [free_ball, Ball.next, Posn.down_by, Posn.right_by])
        (by norm_num [free_ball, Ball.next, Posn.down_by, Posn.right_by])
    · exact to_float_exact _ 8 12517376
        (by norm_num [free_ball, Ball.next, Posn.down_by, Posn.right_by])
        (by norm_num [free_ball, Ball.next, Posn.down_by, Posn.right_by])
        (by norm_num [free_ball, Ball.next, Posn.down_by, Posn.right_by])
    · exact to_double_exact _ 2 6755399441055744
        (by norm_num [free_ball, Ball.next, Posn.down_by, Posn.right_by])
        (by norm_num [free_ball, Ball.next, Posn.down_by, Posn.right_by])
        (by norm_num [free_ball, Ball.next, Posn.down_by, Posn.right_by])
    · exact to_float_exact _ 2 12582912
        (by norm_num [free_ball, Ball.next, Posn.down_by, Posn.right_by])
        (by norm_num [free_ball, Ball.next, Posn.down_by, Posn.right_by])
        (by norm_num [free_ball, Ball.next, Posn.down_by, Posn.right_by])
    · exact to_float_exact _ 8 10027008
        (by norm_num [free_ball, Ball.next, Posn.down_by, Posn.right_by])
        (by norm_num [free_ball, Ball.next, Posn.down_by, Posn.right_by])
        (by norm_num [free_ball, Ball.next, Posn.down_by, Posn.right_by])
  obtain ⟨hcenter, heq1, _, heq3⟩ :=
    next_float_accumulates free_ball (1 / 2) (1 / 4) h1 h12 h2 h21 hsum h3
  refine ⟨⟨h1, h12, h2, h21, hsum, h3⟩, ?_, heq1, heq3⟩
  rw [hcenter]
  norm_num [free_ball]

/-- C6, counterexample: the ball at (300, 300) with velocity (1, 1) and the step `0.2` (the
`double` nearest to 1/5). Two steps of 0.2 put the x coordinate at 9843508/32768
(300.4000244...); one step of 0.2 + 0.2 puts it at 9843507/32768 (300.3999938...), the
`float` nearest to 300.4. The two balls are unequal under `operator==`, and the center after
the two steps is not `center + velocity * (dt1 + dt2)`. -/
theorem next_float_accumulates_counterexample :
    to_double (1 / 5) = double_fifth ∧
    ((drift_ball.next_float double_fifth).next_float double_fifth).center.x
      = 9843508 / 32768 ∧
    (drift_ball.next_float (to_double (double_fifth + double_fifth))).center.x
      = 9843507 / 32768 ∧
    Ball.op_eq ((drift_ball.next_float double_fifth).next_float double_fifth)
      (drift_ball.next_float (to_double (double_fifth + double_fifth))) = false ∧
    ((drift_ball.next_float double_fifth).next_float double_fifth).center.x
      ≠ drift_ball.center.x + drift_ball.velocity.width * (double_fifth + double_fifth) := by
  have hfifth : to_double (1 / 5) = double_fifth :=
    to_double_eq _ _ (-3) 7205759403792794
      (by norm_num [drift_ball, double_fifth])
      (by norm_num [drift_ball, double_fifth])
      (by norm_num [drift_ball, double_fifth])
      (by norm_num [drift_ball, double_fifth])
  have d1 : to_double ((1 : ℚ) * double_fifth) = double_fifth :=
    to_double_eq _ _ (-3) 7205759403792794
      (by norm_num [drift_ball, double_fifth])
      (by norm_num [drift_ball, double_fifth])
      (by norm_num [drift_ball, double_fifth])
      (by norm_num [drift_ball, double_fifth])
  have d2 : to_float double_fifth = 13421773 / 67108864 :=
    to_float_eq _ _ (-3) 13421773
      (by norm_num [drift_ball, double_fifth])
      (by norm_num [drift_ball, double_fifth])
      (by norm_num [drift_ball, double_fifth])
      (by norm_num [drift_ball, double_fifth])
  have d3 : to_float ((300 : ℚ) + 13421773 / 67108864) = 9836954 / 32768 :=
    to_float_eq _ _ 8 9836954
      (by norm_num [drift_ball, double_fifth])
      (by norm_num [drift_ball, double_fifth])
      (by norm_num [drift_ball, double_fifth])
      (by norm_num [drift_ball, double_fifth])
  have d4 : to_float ((9836954 / 32768 : ℚ) + 13421773 / 67108864) = 9843508 / 32768 :=
    to_float_eq _ _ 8 9843508
      (by norm_num [drift_ball, double_fifth])
      (by norm_num [drift_ball, double_fifth])
      (by norm_num [drift_ball, double_fifth])
      (by norm_num [drift_ball, double_fifth])
  have hsum : to_double (double_fifth + double_fifth)
      = 3602879701896397 / 9007199254740992 :=
    to_double_eq _ _ (-2) 7205759403792794
      (by norm_num [drift_ball, double_fifth])
      (by norm_num [drift_ball, double_fifth])
      (by norm_num [drift_ball, double_fifth])
      (by norm_num [drift_ball, double_fifth])
  have d5 : to_double ((1 : ℚ) * (3602879701896397 / 9007199254740992))
      = 3602879701896397 / 9007199254740992 :=
    to_double_eq _ _ (-2) 7205759403792794
      (by norm_num [drift_ball, double_fifth])
      (by norm_num [drift_ball, double_fifth])
      (by norm_num [drift_ball, double_fifth])
      (by norm_num [drift_ball, double_fifth])
  have d6 : to_float (3602879701896397 / 9007199254740992) = 13421773 / 33554432 :=
    to_float_eq _ _ (-2) 13421773
      (by norm_num [drift_ball, double_fifth])
      (by norm_num [drift_ball, double_fifth])
      (by norm_num [drift_ball, double_fifth])
      (by norm_num [drift_ball, double_fifth])
  have d7 : to_float ((300 : ℚ) + 13421773 / 33554432) = 9843507 / 32768 :=
    to_float_eq _ _ 8 9843507
      (by norm_num [drift_ball, double_fifth])
      (by norm_num [drift_ball, double_fifth])
      (by norm_num [drift_ball, double_fifth])
      (by norm_num [drift_ball, double_fifth])
  have sA : drift_ball.next_float double_fifth
      = ⟨5, ⟨9836954 / 32768, 9836954 / 32768⟩, ⟨1, 1⟩, true⟩ :=
    next_float_of_roundings drift_ball double_fifth _ _ _ _ _ _ d1 d2 d3 d1 d2 d3
  have sB : Ball.next_float ⟨5, ⟨9836954 / 32768, 9836954 / 32768⟩, ⟨1, 1⟩, true⟩ double_fifth
      = ⟨5, ⟨9843508 / 32768, 9843508 / 32768⟩, ⟨1, 1⟩, true⟩ :=
    next_float_of_roundings _ double_fifth _ _ _ _ _ _ d1 d2 d4 d1 d2 d4
  have sC : drift_ball.next_float (3602879701896397 / 9007199254740992)
      = ⟨5, ⟨9843507 / 32768, 9843507 / 32768⟩, ⟨1, 1⟩, true⟩ :=
    next_float_of_roundings drift_ball _ _ _ _ _ _ _ d5 d6 d7 d5 d6 d7
  rw [hsum, sA, sB, sC]
  refine ⟨hfifth, rfl, rfl, ?_, ?_⟩
  · norm_num [Ball.op_eq]
  · norm_num [drift_ball, double_fifth]

end BrickOut

